import Mathlib

/-!
Verification of the movie-database note plugin (`src/main.ts`).

The embedding works over `Str := List Char`.  JavaScript strings become
`Str`, `String.prototype.replace` with a string pattern becomes
`replaceFirstS` (first-occurrence, literal replacement; the JS `$`-pattern
handling in the replacement argument is not modelled, no replacement string
in the program or in the claims uses it), JS objects holding movie data
become association lists `List (Str × Str)` (JS object keys are unique and
`for..in` visits them in insertion order, which the list order models),
network I/O becomes explicit oracle functions, and the observable actions
of the plugin (notices, HTTP requests, vault writes) become an explicit
`Effect` trace.  A thrown/uncaught JS exception is modelled as `Option.none`
respectively the `Outcome.faulted` terminal state.
-/

/-- JS strings are modelled as lists of characters. -/
abbrev Str := List Char

/-- Coerce a Lean string literal to the model type. -/
def str (s : String) : Str := s.data

/-- The character `{` (written via its code point to keep it out of literals). -/
def lb : Char := Char.ofNat 123

/-- The character `}`. -/
def rb : Char := Char.ofNat 125

/-- The template placeholder token `{{k}}` for a field name `k`. -/
def tok (k : Str) : Str := lb :: lb :: (k ++ [rb, rb])

/-- `leadsWith p s` is true when `p` is an initial segment of `s`
(the check JS `indexOf`-based replace performs at each position). -/
def leadsWith : Str → Str → Bool
  | [], _ => true
  | _ :: _, [] => false
  | p :: ps, c :: cs => p = c && leadsWith ps cs

/-- `hasSub s p` is true when `p` occurs contiguously somewhere in `s`
(i.e. `s.indexOf(p) !== -1` in JS). -/
def hasSub : Str → Str → Bool
  | [], p => leadsWith p []
  | s@(_ :: rest), p => leadsWith p s || hasSub rest p

/-- `replaceFirstS s p r` models `s.replace(p, r)` for a string pattern `p`:
only the first occurrence of `p` is replaced, and an absent pattern leaves
`s` unchanged. -/
def replaceFirstS : Str → Str → Str → Str
  | [], p, r => if leadsWith p [] then r else []
  | s@(c :: rest), p, r =>
      if leadsWith p s then r ++ s.drop p.length else c :: replaceFirstS rest p r

/-- A string without brace characters; placeholder tokens cannot occur in or
overlap such a string. -/
def braceFree (s : Str) : Prop := lb ∉ s ∧ rb ∉ s

instance braceFree_decidable (s : Str) : Decidable (braceFree s) :=
  inferInstanceAs (Decidable (lb ∉ s ∧ rb ∉ s))

/-! ## Data model (`MoviePluginSettings`, network oracles, observable effects) -/

/-- The plugin's flat settings record (`MoviePluginSettings` in `src/main.ts`).
`imageSize` is an `Int`; the JS `NaN` case of `parseInt` on the settings page
is outside the claims and not modelled. -/
structure MoviePluginSettings where
  omdbapikey : Str
  youtubeapikey : Str
  template : Str
  mainPath : Str
  assetPath : Str
  fileName : Str
  imageSize : Int

/-- The literal `{key}` placeholder used in the two endpoint templates. -/
def keyTok : Str := lb :: (str "key" ++ [rb])

/-- `extractMovieUrl` from the source. -/
def extractMovieUrl : Str := str "https://www.omdbapi.com/?apikey=" ++ keyTok ++ str "&"

/-- `youtubeApiUrl` from the source. -/
def youtubeApiUrlConst : Str :=
  str "https://www.googleapis.com/youtube/v3/search?key=" ++ keyTok ++
    str "&type=video&maxResults=1&videoEmbeddable=true&q="

/-- `updateKeys`: `this.omdbApiUrl = extractMovieUrl.replace("{key}", omdbapikey)`. -/
def omdbApiUrlOf (s : MoviePluginSettings) : Str :=
  replaceFirstS extractMovieUrl keyTok s.omdbapikey

/-- `updateKeys`: `this.youtubeApiUrl = youtubeApiUrl.replace("{key}", youtubeapikey)`. -/
def youtubeApiUrlOf (s : MoviePluginSettings) : Str :=
  replaceFirstS youtubeApiUrlConst keyTok s.youtubeapikey

/-- Shape of the video-search JSON: `items[i].id.videoId`. -/
structure YoutubeVideoId where
  videoId : Str
deriving DecidableEq

/-- One item of the video-search response. -/
structure YoutubeItem where
  id : YoutubeVideoId
deriving DecidableEq

/-- The video-search response body. -/
structure YoutubeSearchResponse where
  items : List YoutubeItem
deriving DecidableEq

/-- Observable actions of the pipeline: user-visible notices, HTTP requests
(`requestUrl`), and the host-vault operations. -/
inductive Effect where
  | notice (msg : Str)
  | fetch (url : Str)
  | createBinary (path : Str)
  | create (path : Str) (content : Str)
  | openLink (path : Str)
deriving DecidableEq

/-- Terminal state of a pipeline run: `finished` covers both normal completion
and the guarded early aborts; `faulted` is an uncaught exception escaping the
pipeline (there is no try/catch around the formatter or the file write). -/
inductive Outcome where
  | finished
  | faulted
deriving DecidableEq

/-- The network, as oracles from request URL to response.  `Except.error e`
models a `requestUrl` rejection (network error, non-2xx status, or a body on
which the `.json` getter throws); `Except.ok` carries the parsed JSON.  The
`asset` oracle covers the poster download (`none` = rejected fetch). -/
structure Network where
  omdb : Str → Except Str (List (Str × Str))
  yt : Str → Except Str YoutubeSearchResponse
  asset : Str → Option Unit

/-! ## Query builder (`getUrl`) -/

/-- Does `/tt\d+$/` match at the current position, i.e. is the string
`"tt"` followed by one or more digits reaching the end? -/
def ttHead : Str → Bool
  | a :: b :: rest => a = 't' && b = 't' && !rest.isEmpty && rest.all (fun c => c.isDigit)
  | _ => false

/-- `/tt\d+$/.test(text)`: the head test at every start position. -/
def ttMatch : Str → Bool
  | [] => false
  | s@(_ :: rest) => ttHead s || ttMatch rest

/-- The ASCII part of the JS `\s` character class (the claims only involve
the plain space character). -/
def isWs (c : Char) : Bool :=
  c = ' ' || c = '\t' || c = '\n' || c = '\r' || c = Char.ofNat 11 || c = Char.ofNat 12

/-- Does `/\s\([\d]{4}\)/` match at the current position? -/
def yearHead : Str → Bool
  | c0 :: c1 :: d1 :: d2 :: d3 :: d4 :: c6 :: _ =>
      isWs c0 && c1 = '(' && d1.isDigit && d2.isDigit && d3.isDigit && d4.isDigit && c6 = ')'
  | _ => false

/-- `/\s\([\d]{4}\)/.test(text)`: the head test at every start position. -/
def yearMatchB : Str → Bool
  | [] => false
  | s@(_ :: rest) => yearHead s || yearMatchB rest

/-- `text.replace(/\s\([\d]{4}\)/, "")`: remove the 7 characters of the first
match, if any. -/
def stripYear : Str → Str
  | [] => []
  | s@(c :: rest) => if yearHead s then s.drop 7 else c :: stripYear rest

/-- Does `/\(([\d]{4})\)/` match at the current position?  Returns the
captured 4 digits. -/
def parenHead : Str → Option Str
  | c1 :: d1 :: d2 :: d3 :: d4 :: c6 :: _ =>
      if c1 = '(' && d1.isDigit && d2.isDigit && d3.isDigit && d4.isDigit && c6 = ')'
      then some [d1, d2, d3, d4] else none
  | _ => none

/-- `text.match(/\(([\d]{4})\)/)?.[1]`: first capture of the first match. -/
def yearOf : Str → Option Str
  | [] => none
  | s@(_ :: rest) => match parenHead s with | some y => some y | none => yearOf rest

/-- `getUrl` from the source; `u` is the instance field `this.omdbApiUrl`.
A `none` from the optional chain would be concatenated as `"undefined"`. -/
def getUrl (u text : Str) : Str :=
  if ttMatch text then u ++ str "i=" ++ text
  else if yearMatchB text then
    u ++ str "t=" ++ stripYear text ++ str "&y=" ++ ((yearOf text).getD (str "undefined"))
  else u ++ str "t=" ++ text

/-! ## Number rendering and `parseInt` -/

/-- Decimal digits of a natural number, i.e. the characters of `${n}`. -/
def natStr (n : Nat) : Str := Nat.toDigits 10 n

/-- The characters of the JS template interpolation `${i}` for an integer. -/
def intStr : Int → Str
  | Int.ofNat n => natStr n
  | Int.negSucc n => '-' :: natStr (n + 1)

/-- Numeric value of a decimal digit run. -/
def natOfDigits (ds : Str) : Nat := ds.foldl (fun n c => 10 * n + (c.toNat - 48)) 0

/-- Hex digit test for the `0x` branch of `parseInt`. -/
def isHexDigit (c : Char) : Bool :=
  c.isDigit || ('a' ≤ c && c ≤ 'f') || ('A' ≤ c && c ≤ 'F')

/-- Numeric value of a hex digit. -/
def hexDigitVal (c : Char) : Nat :=
  if c.isDigit then c.toNat - 48 else if 'a' ≤ c && c ≤ 'f' then c.toNat - 87 else c.toNat - 55

/-- Numeric value of a hex digit run. -/
def natOfHexDigits (ds : Str) : Nat := ds.foldl (fun n c => 16 * n + hexDigitVal c) 0

/-- `parseInt` after whitespace/sign handling: the `0x`/`0X` prefix selects
radix 16, otherwise the maximal leading decimal digit run is taken; no
digits means `NaN` (modelled as `none`). -/
def jsParseIntCore (w : Str) (neg : Bool) : Option Int :=
  match w with
  | '0' :: x :: rest =>
      if x = 'x' || x = 'X' then
        let ds := rest.takeWhile isHexDigit
        if ds.isEmpty then none
        else some (if neg then -(natOfHexDigits ds : Int) else (natOfHexDigits ds : Int))
      else
        let ds := w.takeWhile (fun c => c.isDigit)
        if ds.isEmpty then none
        else some (if neg then -(natOfDigits ds : Int) else (natOfDigits ds : Int))
  | _ =>
      let ds := w.takeWhile (fun c => c.isDigit)
      if ds.isEmpty then none
      else some (if neg then -(natOfDigits ds : Int) else (natOfDigits ds : Int))

/-- JS `parseInt(v)` (radix auto-detection, `NaN` as `none`). -/
def jsParseInt (v : Str) : Option Int :=
  let w := v.dropWhile isWs
  match w with
  | '-' :: rest => jsParseIntCore rest true
  | '+' :: rest => jsParseIntCore rest false
  | _ => jsParseIntCore w false

/-- `v.split(" ")[0]`: the characters before the first space. -/
def jsSplitHead (v : Str) : Str := v.takeWhile (fun c => c != ' ')

/-- The Runtime replacement value: `` `${hour}h ${minuteLeft}m` `` with
`hour = Math.floor(minute / 60)` and `minuteLeft = minute % 60`; a failed
parse renders as `"NaNh NaNm"`. -/
def runtimeRender (v : Str) : Str :=
  match jsParseInt (jsSplitHead v) with
  | none => str "NaNh NaNm"
  | some m => intStr (Int.fdiv m 60) ++ str "h " ++ intStr (Int.tmod m 60) ++ str "m"

/-! ## Movie record helpers and `crawlMovie` -/

/-- The sanitised character class `/[/\\?%*:|"<>]/`. -/
def badChars : Str := ['/', '\\', '?', '%', '*', ':', '|', '"', '<', '>']

/-- `movie.Title.replace(/[/\\?%*:|"<>]/g, '-')`: the `g` flag makes the
single-character class replace every occurrence, i.e. a character map. -/
def sanitizeTitle (t : Str) : Str := t.map (fun c => if c ∈ badChars then '-' else c)

/-- Property read `obj[key]` on the JSON object (unique keys, first match). -/
def lookupStr : List (Str × Str) → Str → Option Str
  | [], _ => none
  | (k, v) :: rest, key => if k = key then some v else lookupStr rest key

/-- Property write `obj[key] = newV` (in-place, key order preserved). -/
def setField : List (Str × Str) → Str → Str → List (Str × Str)
  | [], _, _ => []
  | (k, v) :: rest, key, newV =>
      if k = key then (k, newV) :: setField rest key newV
      else (k, v) :: setField rest key newV

/-- Message of the `TypeError` thrown by `movie.Title.replace` when the API
answered without a `Title` field (the "not found" response); the exact text
is environment-specific and irrelevant to the claims. -/
def titleUndefinedError : Str := str "Cannot read properties of undefined (reading replace)"

/-- `crawlMovie` from the source: build the URL, fetch, sanitise the title.
The catch block turns any throw (rejected fetch, bad JSON, or the `TypeError`
on a missing `Title`) into three notices and an undefined return. -/
def crawlMovie (net : Network) (omdbU text : Str) : Option (List (Str × Str)) × List Effect :=
  let movieUrl := getUrl omdbU text
  match net.omdb movieUrl with
  | Except.error e =>
      (none, [Effect.fetch movieUrl, Effect.notice (str "Movie not found."),
              Effect.notice e, Effect.notice movieUrl])
  | Except.ok movie =>
      match lookupStr movie (str "Title") with
      | none =>
          (none, [Effect.fetch movieUrl, Effect.notice (str "Movie not found."),
                  Effect.notice titleUndefinedError, Effect.notice movieUrl])
      | some t =>
          (some (setField movie (str "Title") (sanitizeTitle t)), [Effect.fetch movieUrl])

/-! ## Trailer fetcher and formatter -/

/-- `getTrailerOnYoutube`: one GET, then `response.json.items[0].id.videoId`.
An empty `items` list makes the index access throw; both that throw and a
rejected fetch are modelled as `none` propagating to the caller. -/
def getTrailerOnYoutube (net : Network) (ytU title : Str) : Option Str × List Effect :=
  let url := ytU ++ title ++ str " trailer"
  match net.yt url with
  | Except.error _ => (none, [Effect.fetch url])
  | Except.ok resp =>
      match resp.items with
      | [] => (none, [Effect.fetch url])
      | item :: _ => (some item.id.videoId, [Effect.fetch url])

/-- The `for (const key in data)` loop of `formatter`: every own field except
Poster, Trailer and Runtime replaces the first occurrence of its token. -/
def genericPass (data : List (Str × Str)) (t : Str) : Str :=
  data.foldl (fun acc kv =>
    if kv.1 = str "Poster" ∨ kv.1 = str "Trailer" ∨ kv.1 = str "Runtime" then acc
    else replaceFirstS acc (tok kv.1) kv.2) t

/-- The Runtime branch of `formatter` (`data.Runtime && data.Runtime !== "N/A"`;
the empty string is falsy). -/
def runtimeStep (data : List (Str × Str)) (t : Str) : Str :=
  match lookupStr data (str "Runtime") with
  | some v =>
      if v ≠ [] ∧ v ≠ str "N/A" then replaceFirstS t (tok (str "Runtime")) (runtimeRender v)
      else replaceFirstS t (tok (str "Runtime")) (str "-")
  | none => replaceFirstS t (tok (str "Runtime")) (str "-")

/-- `this.settings.imageSize || 200` (`0` is falsy). -/
def jsOrDefaultSize (i : Int) : Int := if i = 0 then 200 else i

/-- `this.settings.fileName.replace("{{Title}}", data.Title)`. -/
def resolvedPosterFile (s : MoviePluginSettings) (title : Str) : Str :=
  replaceFirstS s.fileName (tok (str "Title")) title

/-- The Poster replacement value `![[<assetPath>/<fileName>.jpg|movie|<size>]]`. -/
def posterEmbed (s : MoviePluginSettings) (title : Str) : Str :=
  str "![[" ++ s.assetPath ++ str "/" ++ resolvedPosterFile s title ++
    str ".jpg|movie|" ++ intStr (jsOrDefaultSize s.imageSize) ++ str "]]"

/-- The Poster branch of `formatter`. -/
def posterStep (s : MoviePluginSettings) (data : List (Str × Str)) (t : Str) : Str :=
  match lookupStr data (str "Poster") with
  | some p =>
      if p ≠ [] ∧ p ≠ str "N/A" then
        replaceFirstS t (tok (str "Poster"))
          (posterEmbed s ((lookupStr data (str "Title")).getD (str "undefined")))
      else replaceFirstS t (tok (str "Poster")) (str "-")
  | none => replaceFirstS t (tok (str "Poster")) (str "-")

/-- The Trailer replacement value, the embedded `<iframe>`. -/
def iframeOf (trailerId : Str) : Str :=
  str "<iframe class=\"movie\" width=\"560\" height=\"315\" src=\"https://www.youtube.com/embed/" ++
    trailerId ++
    str "\" title=\"YouTube video player\" frameborder=\"0\" allow=\"accelerometer; autoplay; clipboard-write; encrypted-media; gyroscope; picture-in-picture; web-share\" allowfullscreen></iframe>"

/-- `formatter` from the source.  The first component is the produced text,
`none` when the awaited trailer lookup threw (that exception is not caught
anywhere); the second component is the fetches it performed. -/
def formatter (s : MoviePluginSettings) (net : Network) (data : List (Str × Str))
    (template : Str) : Option Str × List Effect :=
  let t1 := genericPass data template
  let t2 := runtimeStep data t1
  let t3 := posterStep s data t2
  if s.youtubeapikey ≠ [] then
    match getTrailerOnYoutube net (youtubeApiUrlOf s)
        ((lookupStr data (str "Title")).getD (str "undefined")) with
    | (none, eff) => (none, eff)
    | (some tr, eff) => (some (replaceFirstS t3 (tok (str "Trailer")) (iframeOf tr)), eff)
  else (some (replaceFirstS t3 (tok (str "Trailer")) []), [])

/-- `formatMovie`: the formatter applied to the note template. -/
def formatMovie (s : MoviePluginSettings) (net : Network)
    (movie : List (Str × Str)) : Option Str × List Effect :=
  formatter s net movie s.template

/-! ## Asset and note writing, orchestrator -/

/-- `addImageToAssets`: download `url` and write the bytes to
`<assetPath>/<fileName>`.  The call in `crawlAndAdd` is not awaited; its
effects are linearised at the call site (the claims do not depend on the
interleaving).  A rejected fetch aborts only this fire-and-forget branch. -/
def addImageToAssets (net : Network) (s : MoviePluginSettings)
    (url fileNameArg : Str) : List Effect :=
  match net.asset url with
  | none => [Effect.fetch url]
  | some _ => [Effect.fetch url, Effect.createBinary (s.assetPath ++ str "/" ++ fileNameArg)]

/-- `addContentToFile`: the output filename is the full formatter applied to
the `fileName` template, then the note is created and opened. -/
def addContentToFile (s : MoviePluginSettings) (net : Network) (text : Str)
    (movie : List (Str × Str)) : List Effect × Outcome :=
  match formatter s net movie s.fileName with
  | (none, eff) => (eff, Outcome.faulted)
  | (some fn, eff) =>
      let path := s.mainPath ++ str "/" ++ fn ++ str ".md"
      (eff ++ [Effect.create path text, Effect.openLink path,
               Effect.notice (str "Movie added successfully!")], Outcome.finished)

/-- `crawlAndAdd`, the orchestrator: key guards, metadata fetch, poster
download, note formatting and writing. -/
def crawlAndAdd (s : MoviePluginSettings) (net : Network) (text : Str) :
    List Effect × Outcome :=
  if s.omdbapikey = [] then
    ([Effect.notice (str "Please enter your OMDB API key in the settings.")], Outcome.finished)
  else
    let warn : List Effect :=
      if s.youtubeapikey = [] then
        [Effect.notice (str "Youtube API key is missing. Trailer will not be added.")]
      else []
    match crawlMovie net (omdbApiUrlOf s) text with
    | (none, eff) => (warn ++ eff, Outcome.finished)
    | (some movie, eff) =>
        let title := (lookupStr movie (str "Title")).getD (str "undefined")
        let imgEff := addImageToAssets net s
          ((lookupStr movie (str "Poster")).getD (str "undefined")) (title ++ str ".jpg")
        match formatMovie s net movie with
        | (none, feff) => (warn ++ eff ++ imgEff ++ feff, Outcome.faulted)
        | (some body, feff) =>
            match addContentToFile s net body movie with
            | (ceff, out) => (warn ++ eff ++ imgEff ++ feff ++ ceff, out)


/-- Is an effect an HTTP request?  Used to count fetches (no-retry claims). -/
def isFetch : Effect → Bool
  | Effect.fetch _ => true
  | _ => false

/-- Number of HTTP requests in a trace. -/
def countFetches (tr : List Effect) : Nat := (tr.filter isFetch).length

/-! ## Concrete fixtures for counterexamples and witnesses -/

/-- The apostrophe character. -/
def apos : Char := Char.ofNat 39

/-- The fetched title of the spec example, `Ocean's 8: Redux?`. -/
def oceansFetched : Str := str "Ocean" ++ [apos] ++ str "s 8: Redux?"

/-- What the spec claims the sanitised title is (colon kept). -/
def oceansClaimed : Str := str "Ocean" ++ [apos] ++ str "s 8: Redux-"

/-- What the code actually produces (colon replaced as well). -/
def oceansSanitized : Str := str "Ocean" ++ [apos] ++ str "s 8- Redux-"

/-- Video-search oracle returning no items. -/
def ytEmpty : Str → Except Str YoutubeSearchResponse := fun _ => Except.ok ⟨[]⟩

/-- Video-search oracle returning one item. -/
def ytVid : Str → Except Str YoutubeSearchResponse :=
  fun _ => Except.ok ⟨[⟨⟨str "dQw4w9WgXcQ"⟩⟩]⟩

/-- A network whose movie lookup returns the Oceans record. -/
def netOceans : Network :=
  { omdb := fun _ => Except.ok [(str "Title", oceansFetched)],
    yt := ytEmpty, asset := fun _ => some () }

/-- Base settings fixture: movie key set, no video-search key. -/
def s0 : MoviePluginSettings :=
  { omdbapikey := str "omdbkey", youtubeapikey := [], template := [],
    mainPath := str "movies", assetPath := str "assets",
    fileName := tok (str "Title"), imageSize := 200 }

/-- Settings fixture with a video-search key and a Runtime token in the
filename template. -/
def s9 : MoviePluginSettings :=
  { omdbapikey := str "omdbkey", youtubeapikey := str "ytkey",
    template := tok (str "Plot"), mainPath := str "movies",
    assetPath := str "assets", fileName := str "F-" ++ tok (str "Runtime"),
    imageSize := 200 }

/-- Settings fixture whose filename template is not just `{{Title}}`. -/
def s10 : MoviePluginSettings :=
  { omdbapikey := str "omdbkey", youtubeapikey := [], template := [],
    mainPath := str "movies", assetPath := str "assets",
    fileName := str "Movie - " ++ tok (str "Title"), imageSize := 200 }

/-- A typical successful movie record. -/
def duneRecord : List (Str × Str) :=
  [(str "Title", str "Dune"), (str "Runtime", str "155 min"),
   (str "Poster", str "http://x/p.jpg")]

/-- Network fixture answering the movie lookup with `duneRecord`. -/
def netDune (ytr : Str → Except Str YoutubeSearchResponse) : Network :=
  { omdb := fun _ => Except.ok duneRecord, yt := ytr, asset := fun _ => some () }

/-- Network fixture whose movie fetch rejects. -/
def netOmdbErr : Network :=
  { omdb := fun _ => Except.error (str "net ERR_CONNECTION_REFUSED"),
    yt := ytEmpty, asset := fun _ => some () }

/-- Network fixture answering with the API-level not-found body (no Title). -/
def netNoTitle : Network :=
  { omdb := fun _ => Except.ok [(str "Response", str "False"),
      (str "Error", str "Movie not found!")],
    yt := ytEmpty, asset := fun _ => some () }

/-- The record of the C4 counterexample: a second field whose name contains
braces, so that its token overlaps the two residual Title tokens. -/
def badKeyRecord : List (Str × Str) :=
  [(str "Title", str "v"), (str "Title" ++ [rb, rb, lb, lb] ++ str "Title", str "w")]

/-! ## String-rewriting lemmas -/

theorem leadsWith_append_self (p t : Str) : leadsWith p (p ++ t) = true := by
  induction p with
  | nil => rfl
  | cons c ps ih => simp [leadsWith, ih]

theorem replaceFirstS_of_not_hasSub {s p : Str} (r : Str) (h : hasSub s p = false) :
    replaceFirstS s p r = s := by
  induction s with
  | nil =>
      simp only [hasSub] at h
      simp [replaceFirstS, h]
  | cons c rest ih =>
      simp only [hasSub, Bool.or_eq_false_iff] at h
      simp [replaceFirstS, h.1, ih h.2]

theorem replaceFirstS_append {a b p' : Str} (r : Str) (ha : lb ∉ a) :
    replaceFirstS (a ++ (lb :: p') ++ b) (lb :: p') r = a ++ r ++ b := by
  induction a with
  | nil =>
      have hl : leadsWith (lb :: p') (lb :: (p' ++ b)) = true :=
        leadsWith_append_self (lb :: p') b
      have hd : List.drop (lb :: p').length (lb :: (p' ++ b)) = b :=
        List.drop_left (lb :: p') b
      simp only [List.nil_append, List.cons_append, replaceFirstS, List.append_eq, hl,
        if_true, hd]
  | cons c rest ih =>
      have hc : c ≠ lb := fun h => ha (h ▸ List.mem_cons_self c rest)
      have hne : lb ∉ rest := fun h => ha (List.mem_cons_of_mem c h)
      have hlw : leadsWith (lb :: p') (c :: (rest ++ (lb :: p') ++ b)) = false := by
        simp [leadsWith, Ne.symm hc]
      have ih' := ih hne
      simp only [List.cons_append, List.append_assoc] at ih' hlw ⊢
      simp only [replaceFirstS, hlw, Bool.false_eq_true, if_false, ih']

theorem hasSub_of_append (a p b : Str) : hasSub (a ++ p ++ b) p = true := by
  induction a with
  | nil =>
      cases p with
      | nil =>
          cases b with
          | nil => rfl
          | cons c cs => simp [hasSub, leadsWith]
      | cons c cs =>
          have h : leadsWith (c :: cs) (c :: (cs ++ b)) = true :=
            leadsWith_append_self (c :: cs) b
          simp [hasSub, h]
  | cons c rest ih =>
      have ih' : hasSub (rest ++ (p ++ b)) p = true := by
        rw [← List.append_assoc]; exact ih
      simp [hasSub, ih']

theorem hasSub_eq_false_of_not_mem {s : Str} (p' : Str) (h : lb ∉ s) :
    hasSub s (lb :: p') = false := by
  induction s with
  | nil => rfl
  | cons c rest ih =>
      have hc : c ≠ lb := fun hh => h (hh ▸ List.mem_cons_self c rest)
      have hr : lb ∉ rest := fun hh => h (List.mem_cons_of_mem c hh)
      simp [hasSub, leadsWith, Ne.symm hc, ih hr]

theorem leadsWith_key_ne {k1 k2 b : Str} (h1 : braceFree k1) (h2 : braceFree k2)
    (hne : k1 ≠ k2) : leadsWith (k1 ++ [rb, rb]) (k2 ++ rb :: rb :: b) = false := by
  induction k1 generalizing k2 with
  | nil =>
      cases k2 with
      | nil => exact absurd rfl hne
      | cons d k2' =>
          have hd : d ≠ rb := fun hh => h2.2 (hh ▸ List.mem_cons_self d k2')
          simp [leadsWith, Ne.symm hd]
  | cons c k1' ih =>
      cases k2 with
      | nil =>
          have hc : c ≠ rb := fun hh => h1.2 (hh ▸ List.mem_cons_self c k1')
          simp [leadsWith, hc]
      | cons d k2' =>
          by_cases hcd : c = d
          · subst hcd
            have h1' : braceFree k1' :=
              ⟨fun hh => h1.1 (List.mem_cons_of_mem c hh),
               fun hh => h1.2 (List.mem_cons_of_mem c hh)⟩
            have h2' : braceFree k2' :=
              ⟨fun hh => h2.1 (List.mem_cons_of_mem c hh),
               fun hh => h2.2 (List.mem_cons_of_mem c hh)⟩
            have hne' : k1' ≠ k2' := fun hh => hne (hh ▸ rfl)
            simp [leadsWith, ih h1' h2' hne']
          · simp [leadsWith, hcd]

theorem hasSub_tok_ne {a b k1 k2 : Str} (ha : braceFree a) (hb : braceFree b)
    (h1 : braceFree k1) (h2 : braceFree k2) (hne : k1 ≠ k2) :
    hasSub (a ++ tok k2 ++ b) (tok k1) = false := by
  induction a with
  | nil =>
      have hlbrb : lb ≠ rb := by decide
      have expand : ([] : Str) ++ tok k2 ++ b = lb :: lb :: (k2 ++ rb :: rb :: b) := by
        simp [tok]
      rw [expand]
      have e0 : leadsWith (tok k1) (lb :: lb :: (k2 ++ rb :: rb :: b)) = false := by
        simp [tok, leadsWith, leadsWith_key_ne h1 h2 hne]
      have e1 : leadsWith (tok k1) (lb :: (k2 ++ rb :: rb :: b)) = false := by
        cases k2 with
        | nil => simp [tok, leadsWith, hlbrb]
        | cons d k2' =>
            have hd : d ≠ lb := fun hh => h2.1 (hh ▸ List.mem_cons_self d k2')
            simp [tok, leadsWith, Ne.symm hd]
      have e2 : hasSub (k2 ++ rb :: rb :: b) (tok k1) = false := by
        have hm : lb ∉ k2 ++ rb :: rb :: b := by
          intro hm
          rcases List.mem_append.mp hm with hm' | hm'
          · exact h2.1 hm'
          · rcases List.mem_cons.mp hm' with h | h
            · exact hlbrb h
            · rcases List.mem_cons.mp h with h' | h'
              · exact hlbrb h'
              · exact hb.1 h'
        exact hasSub_eq_false_of_not_mem _ hm
      simp only [hasSub, e0, e1, e2, Bool.or_self, Bool.or_false]
  | cons c rest ih =>
      have hc : c ≠ lb := fun hh => ha.1 (hh ▸ List.mem_cons_self c rest)
      have ha' : braceFree rest :=
        ⟨fun hh => ha.1 (List.mem_cons_of_mem c hh),
         fun hh => ha.2 (List.mem_cons_of_mem c hh)⟩
      have hlw : leadsWith (tok k1) (c :: (rest ++ (tok k2 ++ b))) = false := by
        simp only [tok]
        simp [leadsWith, Ne.symm hc]
      have ih' : hasSub (rest ++ (tok k2 ++ b)) (tok k1) = false := by
        rw [← List.append_assoc]; exact ih ha'
      simp only [List.cons_append, List.append_assoc, hasSub]
      simp [hlw, ih']


/-! ## Helper lemmas -/

theorem digitChar_of_ge (m : Nat) : Nat.digitChar (m + 16) = '*' := by
  have hne : ∀ k : Nat, k < 16 → ¬(m + 16 = k) := fun k hk h => by omega
  unfold Nat.digitChar
  rw [if_neg (hne 0 (by decide)), if_neg (hne 1 (by decide)), if_neg (hne 2 (by decide)),
      if_neg (hne 3 (by decide)), if_neg (hne 4 (by decide)), if_neg (hne 5 (by decide)),
      if_neg (hne 6 (by decide)), if_neg (hne 7 (by decide)), if_neg (hne 8 (by decide)),
      if_neg (hne 9 (by decide)), if_neg (hne 10 (by decide)), if_neg (hne 11 (by decide)),
      if_neg (hne 12 (by decide)), if_neg (hne 13 (by decide)), if_neg (hne 14 (by decide)),
      if_neg (hne 15 (by decide))]

theorem digitChar_ne_lb (n : Nat) : Nat.digitChar n ≠ lb := by
  rcases Nat.lt_or_ge n 16 with h | h
  · interval_cases n <;> decide
  · obtain ⟨m, rfl⟩ : ∃ m, n = m + 16 := ⟨n - 16, by omega⟩
    rw [digitChar_of_ge]
    decide

theorem digitChar_ne_rb (n : Nat) : Nat.digitChar n ≠ rb := by
  rcases Nat.lt_or_ge n 16 with h | h
  · interval_cases n <;> decide
  · obtain ⟨m, rfl⟩ : ∃ m, n = m + 16 := ⟨n - 16, by omega⟩
    rw [digitChar_of_ge]
    decide

theorem toDigitsCore_no_brace :
    ∀ (f n : Nat) (ds : Str), (∀ c ∈ ds, c ≠ lb ∧ c ≠ rb) →
      ∀ c ∈ Nat.toDigitsCore 10 f n ds, c ≠ lb ∧ c ≠ rb := by
  intro f
  induction f with
  | zero => intro n ds h c hc; exact h c hc
  | succ f ih =>
      intro n ds h c hc
      unfold Nat.toDigitsCore at hc
      by_cases hz : n / 10 = 0
      · rw [if_pos hz] at hc
        rcases List.mem_cons.mp hc with h1 | h1
        · exact h1 ▸ ⟨digitChar_ne_lb _, digitChar_ne_rb _⟩
        · exact h c h1
      · rw [if_neg hz] at hc
        refine ih (n / 10) (Nat.digitChar (n % 10) :: ds) ?_ c hc
        intro d hd
        rcases List.mem_cons.mp hd with h1 | h1
        · exact h1 ▸ ⟨digitChar_ne_lb _, digitChar_ne_rb _⟩
        · exact h d h1

theorem natStr_braceFree (n : Nat) : braceFree (natStr n) := by
  constructor
  · intro h
    exact (toDigitsCore_no_brace (n + 1) n [] (by intro c hc; cases hc) lb h).1 rfl
  · intro h
    exact (toDigitsCore_no_brace (n + 1) n [] (by intro c hc; cases hc) rb h).2 rfl

theorem intStr_braceFree (i : Int) : braceFree (intStr i) := by
  cases i with
  | ofNat n => exact natStr_braceFree n
  | negSucc n =>
      have h := natStr_braceFree (n + 1)
      constructor
      · intro hm
        rcases List.mem_cons.mp hm with h1 | h1
        · exact absurd h1.symm (by decide)
        · exact h.1 h1
      · intro hm
        rcases List.mem_cons.mp hm with h1 | h1
        · exact absurd h1.symm (by decide)
        · exact h.2 h1

theorem braceFree_append {a b : Str} (ha : braceFree a) (hb : braceFree b) :
    braceFree (a ++ b) := by
  constructor
  · intro h
    rcases List.mem_append.mp h with h1 | h1
    · exact ha.1 h1
    · exact hb.1 h1
  · intro h
    rcases List.mem_append.mp h with h1 | h1
    · exact ha.2 h1
    · exact hb.2 h1

/-- A token cannot occur in a string containing no `{`. -/
theorem hasSub_tok_of_no_lb {s : Str} (k : Str) (h : lb ∉ s) : hasSub s (tok k) = false :=
  hasSub_eq_false_of_not_mem (lb :: (k ++ [rb, rb])) h

/-- A token replace is a no-op on a string containing no `{`. -/
theorem replaceFirstS_tok_no_op {s : Str} (k r : Str) (h : lb ∉ s) :
    replaceFirstS s (tok k) r = s :=
  replaceFirstS_of_not_hasSub r (hasSub_tok_of_no_lb k h)

/-- Replacing a token whose first occurrence starts right after a `{`-free
prefix `a` rewrites exactly that occurrence. -/
theorem replaceFirstS_tok (a b k r : Str) (ha : lb ∉ a) :
    replaceFirstS (a ++ tok k ++ b) (tok k) r = a ++ r ++ b :=
  replaceFirstS_append r ha

/-- Replacing token `k1` in a brace-free context around a different token
`k2` is a no-op. -/
theorem replaceFirstS_tok_ne {a b k1 k2 : Str} (r : Str) (ha : braceFree a)
    (hb : braceFree b) (h1 : braceFree k1) (h2 : braceFree k2) (hne : k1 ≠ k2) :
    replaceFirstS (a ++ tok k2 ++ b) (tok k1) r = a ++ tok k2 ++ b :=
  replaceFirstS_of_not_hasSub r (hasSub_tok_ne ha hb h1 h2 hne)

theorem genericPass_nil (t : Str) : genericPass [] t = t := rfl

theorem genericPass_cons (k v : Str) (rest : List (Str × Str)) (t : Str) :
    genericPass ((k, v) :: rest) t =
      genericPass rest
        (if k = str "Poster" ∨ k = str "Trailer" ∨ k = str "Runtime" then t
         else replaceFirstS t (tok k) v) := rfl

theorem genericPass_no_op {data : List (Str × Str)} {t : Str}
    (h : ∀ kv ∈ data, (kv.1 = str "Poster" ∨ kv.1 = str "Trailer" ∨ kv.1 = str "Runtime")
          ∨ hasSub t (tok kv.1) = false) :
    genericPass data t = t := by
  induction data with
  | nil => rfl
  | cons kv rest ih =>
      obtain ⟨k, v⟩ := kv
      rw [genericPass_cons]
      rcases h (k, v) (List.mem_cons_self _ _) with hs | hns
      · rw [if_pos hs]
        exact ih fun kv hkv => h kv (List.mem_cons_of_mem _ hkv)
      · by_cases hs : k = str "Poster" ∨ k = str "Trailer" ∨ k = str "Runtime"
        · rw [if_pos hs]
          exact ih fun kv hkv => h kv (List.mem_cons_of_mem _ hkv)
        · rw [if_neg hs, replaceFirstS_of_not_hasSub _ hns]
          exact ih fun kv hkv => h kv (List.mem_cons_of_mem _ hkv)

theorem lookupStr_setField_self {j : List (Str × Str)} {k t0 : Str} (v : Str)
    (h : lookupStr j k = some t0) : lookupStr (setField j k v) k = some v := by
  induction j with
  | nil => simp [lookupStr] at h
  | cons kv rest ih =>
      obtain ⟨k', v'⟩ := kv
      by_cases hk : k' = k
      · simp [lookupStr, setField, hk]
      · simp only [lookupStr, setField, hk, if_false, if_neg hk] at h ⊢
        exact ih h

theorem lookupStr_setField_ne {j : List (Str × Str)} {k k' : Str} (v : Str)
    (h : k' ≠ k) : lookupStr (setField j k v) k' = lookupStr j k' := by
  induction j with
  | nil => rfl
  | cons kv rest ih =>
      obtain ⟨k0, v0⟩ := kv
      by_cases hk : k0 = k
      · have hk0 : k0 ≠ k' := fun hh => h (hh ▸ hk)
        simp only [setField, if_pos hk, lookupStr, if_neg hk0, ih]
      · simp only [setField, if_neg hk, lookupStr]
        by_cases hk' : k0 = k'
        · rw [if_pos hk', if_pos hk']
        · rw [if_neg hk', if_neg hk', ih]

theorem setField_keys {j : List (Str × Str)} {key newV : Str} :
    ∀ kv ∈ setField j key newV, ∃ kv' ∈ j, kv.1 = kv'.1 := by
  induction j with
  | nil => intro kv h; cases h
  | cons kv0 rest ih =>
      obtain ⟨k0, v0⟩ := kv0
      intro kv h
      by_cases hk : k0 = key
      · rw [setField, if_pos hk] at h
        rcases List.mem_cons.mp h with h1 | h1
        · exact ⟨(k0, v0), List.mem_cons_self _ _, by rw [h1]⟩
        · obtain ⟨kv', hkv', he⟩ := ih kv h1
          exact ⟨kv', List.mem_cons_of_mem _ hkv', he⟩
      · rw [setField, if_neg hk] at h
        rcases List.mem_cons.mp h with h1 | h1
        · exact ⟨(k0, v0), List.mem_cons_self _ _, by rw [h1]⟩
        · obtain ⟨kv', hkv', he⟩ := ih kv h1
          exact ⟨kv', List.mem_cons_of_mem _ hkv', he⟩

theorem fdiv_ofNat (m n : Nat) : Int.fdiv (Int.ofNat m) (Int.ofNat n) = Int.ofNat (m / n) := by
  cases m with
  | zero => rw [Nat.zero_div]; rfl
  | succ k => rfl

theorem tmod_ofNat (m n : Nat) : Int.tmod (Int.ofNat m) (Int.ofNat n) = Int.ofNat (m % n) := rfl

/-! ## Formatter-level helper lemmas -/

theorem formatter_no_yt {s : MoviePluginSettings} (net : Network)
    (data : List (Str × Str)) (tpl : Str) (hk : s.youtubeapikey = []) :
    formatter s net data tpl =
      (some (replaceFirstS (posterStep s data (runtimeStep data (genericPass data tpl)))
        (tok (str "Trailer")) []), []) := by
  simp [formatter, hk]

theorem formatter_yt_ok {s : MoviePluginSettings} {net : Network}
    {data : List (Str × Str)} {T : Str} {item : YoutubeItem} {rest : List YoutubeItem}
    (tpl : Str) (hk : s.youtubeapikey ≠ [])
    (hT : lookupStr data (str "Title") = some T)
    (hyt : net.yt (youtubeApiUrlOf s ++ T ++ str " trailer") = Except.ok ⟨item :: rest⟩) :
    formatter s net data tpl =
      (some (replaceFirstS (posterStep s data (runtimeStep data (genericPass data tpl)))
        (tok (str "Trailer")) (iframeOf item.id.videoId)),
       [Effect.fetch (youtubeApiUrlOf s ++ T ++ str " trailer")]) := by
  have hyt' : net.yt (youtubeApiUrlOf s ++ (T ++ str " trailer")) =
      Except.ok ⟨item :: rest⟩ := by rw [← List.append_assoc]; exact hyt
  simp [formatter, getTrailerOnYoutube, hk, hT, hyt']

theorem formatter_yt_empty {s : MoviePluginSettings} {net : Network}
    {data : List (Str × Str)} {T : Str} (tpl : Str) (hk : s.youtubeapikey ≠ [])
    (hT : lookupStr data (str "Title") = some T)
    (hyt : net.yt (youtubeApiUrlOf s ++ T ++ str " trailer") = Except.ok ⟨[]⟩) :
    formatter s net data tpl =
      (none, [Effect.fetch (youtubeApiUrlOf s ++ T ++ str " trailer")]) := by
  have hyt' : net.yt (youtubeApiUrlOf s ++ (T ++ str " trailer")) =
      Except.ok ⟨[]⟩ := by rw [← List.append_assoc]; exact hyt
  simp [formatter, getTrailerOnYoutube, hk, hT, hyt']

/-! ## Regex-scan lemmas for the query builder -/

theorem ttMatch_of_suffix (p q : Str) (h : ttMatch q = true) : ttMatch (p ++ q) = true := by
  induction p with
  | nil => exact h
  | cons c p' ih => simp [ttMatch, ih]

theorem ttHead_tt (d : Str) (hne : d ≠ []) (hd : ∀ c ∈ d, c.isDigit = true) :
    ttHead ('t' :: 't' :: d) = true := by
  cases d with
  | nil => exact absurd rfl hne
  | cons e es =>
      simp only [ttHead, List.all_eq_true, List.isEmpty_cons, Bool.not_false,
        decide_True, Bool.true_and]
      intro c hc
      exact hd c hc

theorem ttMatch_concat_false (xs : Str) (c : Char) (hc : c.isDigit = false) :
    ttMatch (xs ++ [c]) = false := by
  induction xs with
  | nil => simp [ttMatch, ttHead]
  | cons x xs' ih =>
      have hh : ttHead (x :: (xs' ++ [c])) = false := by
        cases xs' with
        | nil => simp [ttHead]
        | cons y ys => simp [ttHead, hc]
      simp [ttMatch, hh, ih]

theorem yearHead_false_of_second (c0 c1 : Char) (rest : Str) (h : c1 ≠ '(') :
    yearHead (c0 :: c1 :: rest) = false := by
  rcases rest with _ | ⟨e1, _ | ⟨e2, _ | ⟨e3, _ | ⟨e4, _ | ⟨e5, r⟩⟩⟩⟩⟩ <;>
    simp [yearHead, h]

theorem parenHead_none_of_first (c : Char) (rest : Str) (h : c ≠ '(') :
    parenHead (c :: rest) = none := by
  rcases rest with _ | ⟨e1, _ | ⟨e2, _ | ⟨e3, _ | ⟨e4, _ | ⟨e5, r⟩⟩⟩⟩⟩ <;>
    simp [parenHead, h]

theorem yearMatchB_of_suffix (p q : Str) (h : yearMatchB q = true) :
    yearMatchB (p ++ q) = true := by
  induction p with
  | nil => exact h
  | cons c p' ih => simp [yearMatchB, ih]

theorem yearMatchB_site (d1 d2 d3 d4 : Char) (h1 : d1.isDigit = true)
    (h2 : d2.isDigit = true) (h3 : d3.isDigit = true) (h4 : d4.isDigit = true) :
    yearMatchB (' ' :: '(' :: d1 :: d2 :: d3 :: d4 :: [')']) = true := by
  simp [yearMatchB, yearHead, isWs, h1, h2, h3, h4]

theorem stripYear_concat (title : Str) (d1 d2 d3 d4 : Char) (hp : '(' ∉ title)
    (h1 : d1.isDigit = true) (h2 : d2.isDigit = true) (h3 : d3.isDigit = true)
    (h4 : d4.isDigit = true) :
    stripYear (title ++ ' ' :: '(' :: d1 :: d2 :: d3 :: d4 :: [')']) = title := by
  induction title with
  | nil =>
      have hy : yearHead (' ' :: '(' :: d1 :: d2 :: d3 :: d4 :: [')']) = true := by
        simp [yearHead, isWs, h1, h2, h3, h4]
      simp [stripYear, hy]
  | cons x xs ih =>
      have hx : yearHead (x :: (xs ++ ' ' :: '(' :: d1 :: d2 :: d3 :: d4 :: [')'])) = false := by
        cases xs with
        | nil => exact yearHead_false_of_second x ' ' _ (by decide)
        | cons y ys =>
            exact yearHead_false_of_second x y _
              (fun hh => hp (hh ▸ List.mem_cons_of_mem x (List.mem_cons_self y ys)))
      have hp' : '(' ∉ xs := fun hh => hp (List.mem_cons_of_mem x hh)
      simp [stripYear, hx, ih hp']

theorem yearOf_concat (title : Str) (d1 d2 d3 d4 : Char) (hp : '(' ∉ title)
    (h1 : d1.isDigit = true) (h2 : d2.isDigit = true) (h3 : d3.isDigit = true)
    (h4 : d4.isDigit = true) :
    yearOf (title ++ ' ' :: '(' :: d1 :: d2 :: d3 :: d4 :: [')']) = some [d1, d2, d3, d4] := by
  induction title with
  | nil =>
      have h0 : parenHead (' ' :: '(' :: d1 :: d2 :: d3 :: d4 :: [')']) = none :=
        parenHead_none_of_first ' ' _ (by decide)
      have h1' : parenHead ('(' :: d1 :: d2 :: d3 :: d4 :: [')']) = some [d1, d2, d3, d4] := by
        simp [parenHead, h1, h2, h3, h4]
      simp [yearOf, h0, h1']
  | cons x xs ih =>
      have hx : parenHead (x :: (xs ++ ' ' :: '(' :: d1 :: d2 :: d3 :: d4 :: [')'])) = none := by
        cases xs with
        | nil => exact parenHead_none_of_first x _ (fun hh => hp (hh ▸ List.mem_cons_self x []))
        | cons y ys => exact parenHead_none_of_first x _ (fun hh => hp (hh ▸ List.mem_cons_self x (y :: ys)))
      have hp' : '(' ∉ xs := fun hh => hp (List.mem_cons_of_mem x hh)
      simp [yearOf, hx, ih hp']

/-! ## Claim C1 -/

/-- C1 counterexample: the claim predicts that the fetched Title
`Ocean's 8: Redux?` sanitises to `Ocean's 8: Redux-`, but the `:` belongs
to the replaced character class, so `crawlMovie` actually yields
`Ocean's 8- Redux-`. -/
theorem C1_counterexample :
    (crawlMovie netOceans (str "U") (str "Oceans 8")).1
        = some [(str "Title", oceansSanitized)]
    ∧ oceansSanitized ≠ oceansClaimed := by
  constructor
  · decide
  · decide

/-- C1 (amended): `crawlMovie` sanitises the fetched Title by replacing
every occurrence of each character of `/ \ ? % * : | " < >` with `-`;
no character of that class survives sanitisation, and the fetched Title
`Ocean's 8: Redux?` becomes exactly `Ocean's 8- Redux-` (the `:` is
replaced as well, unlike the spec's example output). -/
theorem C1_amended :
    (∀ (net : Network) (u text : Str) (j : List (Str × Str)) (t : Str),
        net.omdb (getUrl u text) = Except.ok j →
        lookupStr j (str "Title") = some t →
        (crawlMovie net u text).1 = some (setField j (str "Title") (sanitizeTitle t)))
    ∧ (∀ (t : Str) (c : Char), c ∈ badChars → c ∉ sanitizeTitle t)
    ∧ sanitizeTitle oceansFetched = oceansSanitized := by
  refine ⟨?_, ?_, by decide⟩
  · intro net u text j t h1 h2
    simp [crawlMovie, h1, h2]
  · intro t c hc hmem
    simp only [sanitizeTitle, List.mem_map] at hmem
    obtain ⟨a, _, ha2⟩ := hmem
    by_cases hb : a ∈ badChars
    · rw [if_pos hb] at ha2
      rw [← ha2] at hc
      exact absurd hc (by decide)
    · rw [if_neg hb] at ha2
      exact hb (ha2 ▸ hc)

/-- C1 witness: the amended theorem applied to the Oceans fixture and to a
concrete string containing `?`. -/
theorem C1_witness :
    (crawlMovie netOceans (str "U") (str "Oceans 8")).1
        = some (setField [(str "Title", oceansFetched)] (str "Title")
            (sanitizeTitle oceansFetched))
    ∧ '?' ∉ sanitizeTitle (str "abc?") :=
  ⟨C1_amended.1 netOceans (str "U") (str "Oceans 8") [(str "Title", oceansFetched)]
      oceansFetched rfl (by decide),
   C1_amended.2.1 (str "abc?") '?' (by decide)⟩

/-! ## Claim C2 -/

/-- C2 counterexample: the year pattern `/\s\([\d]{4}\)/` is not anchored to
the end of the input, so `Inception (2010) Redux` — which does not match a
trailing ` (YYYY)` — is still turned into a title+year query (with the year
parenthetical stripped from the middle), not a title-only query on the whole
string as the claim requires. -/
theorem C2_counterexample :
    getUrl (str "U") (str "Inception (2010) Redux") = str "Ut=Inception Redux&y=2010"
    ∧ getUrl (str "U") (str "Inception (2010) Redux") ≠ str "Ut=Inception (2010) Redux" := by
  constructor
  · decide
  · decide

/-- C2 (amended): `getUrl` classifies with first-match-wins precedence:
an input containing `tt` followed by digits reaching the end yields the
identifier query `i=<input>`; otherwise an input containing a
whitespace-preceded `(YYYY)` parenthetical anywhere (not only trailing)
yields a title+year query in which the first such parenthetical is stripped
and the four digits are passed separately; an input matching neither regex
(in particular one whose parenthesised year is not exactly 4 digits) yields
a title-only query on the entire string. -/
theorem C2_amended :
    (∀ (u p d : Str), d ≠ [] → (∀ c ∈ d, c.isDigit = true) →
        getUrl u (p ++ 't' :: 't' :: d) = u ++ str "i=" ++ (p ++ 't' :: 't' :: d))
    ∧ (∀ (u title : Str) (d1 d2 d3 d4 : Char), '(' ∉ title →
        d1.isDigit = true → d2.isDigit = true → d3.isDigit = true → d4.isDigit = true →
        getUrl u (title ++ ' ' :: '(' :: d1 :: d2 :: d3 :: d4 :: [')'])
          = u ++ str "t=" ++ title ++ str "&y=" ++ [d1, d2, d3, d4])
    ∧ (∀ (u text : Str), ttMatch text = false → yearMatchB text = false →
        getUrl u text = u ++ str "t=" ++ text) := by
  refine ⟨?_, ?_, ?_⟩
  · intro u p d hne hd
    have htt : ttMatch (p ++ 't' :: 't' :: d) = true :=
      ttMatch_of_suffix p _ (by simp [ttMatch, ttHead_tt d hne hd])
    simp [getUrl, htt]
  · intro u title d1 d2 d3 d4 hp h1 h2 h3 h4
    have htt : ttMatch (title ++ ' ' :: '(' :: d1 :: d2 :: d3 :: d4 :: [')']) = false := by
      have e : title ++ (' ' :: '(' :: d1 :: d2 :: d3 :: d4 :: [')'])
          = (title ++ [' ', '(', d1, d2, d3, d4]) ++ [')'] := by simp
      rw [e]
      exact ttMatch_concat_false _ ')' (by decide)
    have hy : yearMatchB (title ++ ' ' :: '(' :: d1 :: d2 :: d3 :: d4 :: [')']) = true :=
      yearMatchB_of_suffix title _ (yearMatchB_site d1 d2 d3 d4 h1 h2 h3 h4)
    have hs := stripYear_concat title d1 d2 d3 d4 hp h1 h2 h3 h4
    have hm := yearOf_concat title d1 d2 d3 d4 hp h1 h2 h3 h4
    simp [getUrl, htt, hy, hs, hm]
  · intro u text h1 h2
    simp [getUrl, h1, h2]

/-- C2 witness: the amended theorem applied to `tt1375666`,
`Inception (2010)` and `Inception (202)`. -/
theorem C2_witness :
    getUrl (str "U") ([] ++ 't' :: 't' :: str "1375666")
        = str "U" ++ str "i=" ++ ([] ++ 't' :: 't' :: str "1375666")
    ∧ getUrl (str "U") (str "Inception" ++ ' ' :: '(' :: '2' :: '0' :: '1' :: '0' :: [')'])
        = str "U" ++ str "t=" ++ str "Inception" ++ str "&y=" ++ ['2', '0', '1', '0']
    ∧ getUrl (str "U") (str "Inception (202)") = str "U" ++ str "t=" ++ str "Inception (202)" :=
  ⟨C2_amended.1 (str "U") [] (str "1375666") (by decide) (by decide),
   C2_amended.2.1 (str "U") (str "Inception") '2' '0' '1' '0'
      (by decide) (by decide) (by decide) (by decide) (by decide),
   C2_amended.2.2 (str "U") (str "Inception (202)") (by decide) (by decide)⟩

/-! ## Claim C3 -/

/-- C3 counterexample: for the template `{{Title}}{{Title}}` and the record
`{Title: "Dune"}` the formatter output is `Dune{{Title}}` — it contains
"Dune" but also a residual `{{Title}}` token, because `replace` fills only
the first occurrence; the claim asserts no residual token for *every*
template containing `{{Title}}`. -/
theorem C3_counterexample :
    (formatter s0 netOceans [(str "Title", str "Dune")]
        (tok (str "Title") ++ tok (str "Title"))).1
        = some (str "Dune" ++ tok (str "Title"))
    ∧ hasSub (str "Dune" ++ tok (str "Title")) (tok (str "Title")) = true := by
  constructor
  · decide
  · decide

/-- C3 (amended): for every template in which `{{Title}}` occurs exactly once
(a brace-free prefix and suffix around one token) and the record with
Title = "Dune", the formatter output contains "Dune" and contains no residual
`{{Title}}` token; when the token occurs more than once, only the first
occurrence is filled and later ones remain as residual tokens. -/
theorem C3_amended : ∀ (s : MoviePluginSettings) (net : Network) (a b : Str),
    s.youtubeapikey = [] → braceFree a → braceFree b →
    (formatter s net [(str "Title", str "Dune")] (a ++ tok (str "Title") ++ b)).1
        = some (a ++ str "Dune" ++ b)
    ∧ hasSub (a ++ str "Dune" ++ b) (str "Dune") = true
    ∧ hasSub (a ++ str "Dune" ++ b) (tok (str "Title")) = false := by
  intro s net a b hk ha hb
  have hnolb : lb ∉ a ++ str "Dune" ++ b := by
    intro hm
    rcases List.mem_append.mp hm with hm' | hm'
    · rcases List.mem_append.mp hm' with h'' | h''
      · exact ha.1 h''
      · exact absurd h'' (by decide)
    · exact hb.1 hm'
  have hg : genericPass [(str "Title", str "Dune")] (a ++ tok (str "Title") ++ b)
      = a ++ str "Dune" ++ b := by
    rw [genericPass_cons, if_neg (by decide), genericPass_nil,
        replaceFirstS_tok a b _ _ ha.1]
  have hr : runtimeStep [(str "Title", str "Dune")] (a ++ str "Dune" ++ b)
      = a ++ str "Dune" ++ b := by
    simp only [runtimeStep,
      show lookupStr [(str "Title", str "Dune")] (str "Runtime") = none from by decide]
    exact replaceFirstS_tok_no_op _ _ hnolb
  have hps : posterStep s [(str "Title", str "Dune")] (a ++ str "Dune" ++ b)
      = a ++ str "Dune" ++ b := by
    simp only [posterStep,
      show lookupStr [(str "Title", str "Dune")] (str "Poster") = none from by decide]
    exact replaceFirstS_tok_no_op _ _ hnolb
  refine ⟨?_, hasSub_of_append a _ b, hasSub_tok_of_no_lb _ hnolb⟩
  rw [formatter_no_yt net _ _ hk]
  show some (replaceFirstS (posterStep s _ (runtimeStep _ (genericPass _ _)))
      (tok (str "Trailer")) []) = _
  rw [hg, hr, hps, replaceFirstS_tok_no_op _ _ hnolb]

/-- C3 witness: the amended theorem at a concrete template `A {{Title}} B`. -/
theorem C3_witness :
    (formatter s0 netOceans [(str "Title", str "Dune")]
        (str "A " ++ tok (str "Title") ++ str " B")).1
        = some (str "A " ++ str "Dune" ++ str " B")
    ∧ hasSub (str "A " ++ str "Dune" ++ str " B") (str "Dune") = true
    ∧ hasSub (str "A " ++ str "Dune" ++ str " B") (tok (str "Title")) = false :=
  C3_amended s0 netOceans (str "A ") (str " B") rfl (by decide) (by decide)

/-! ## Claim C4 -/

/-- C4 counterexample: with the record
`{Title: "v", "Title}}{{Title": "w"}` and the template
`{{Title}}{{Title}}{{Title}}`, the first pass fills the first token with
"v", and the second field's token (two braces, `Title`, two closing braces,
twice over) then matches the two adjacent residual tokens and
rewrites the two residual instances, producing `vw`: the later instances of
`{{Title}}` do not remain unchanged in the output, contradicting the claim
for arbitrary records. -/
theorem C4_counterexample :
    (formatter s0 (netDune ytEmpty) badKeyRecord
        (tok (str "Title") ++ tok (str "Title") ++ tok (str "Title"))).1 = some (str "vw")
    ∧ (formatter s0 (netDune ytEmpty) badKeyRecord
        (tok (str "Title") ++ tok (str "Title") ++ tok (str "Title"))).1
        ≠ some (str "v" ++ tok (str "Title") ++ tok (str "Title"))
    ∧ hasSub (str "vw") (tok (str "Title")) = false := by
  refine ⟨by decide, by decide, by decide⟩

/-- C4 (amended): each `replace` performed by the formatter fills only the
first matching occurrence of its token.  For a record supplying one
applicable brace-free field and a template containing that field's token
twice (in otherwise brace-free context), exactly the first instance is
filled and the later instance remains verbatim; with further fields whose
names contain braces, a later replacement can overlap and rewrite the
residual instances (see the counterexample). -/
theorem C4_amended : ∀ (s : MoviePluginSettings) (net : Network) (k v a b c : Str),
    s.youtubeapikey = [] → braceFree a → braceFree b → braceFree c →
    braceFree k → braceFree v →
    k ≠ str "Poster" → k ≠ str "Trailer" → k ≠ str "Runtime" →
    (formatter s net [(k, v)] (a ++ tok k ++ (b ++ tok k ++ c))).1
        = some (a ++ v ++ (b ++ tok k ++ c)) := by
  intro s net k v a b c hk ha hb hc hkk hv hP hT hR
  have hshape : a ++ v ++ (b ++ tok k ++ c) = (a ++ v ++ b) ++ tok k ++ c := by simp
  have hAb : braceFree (a ++ v ++ b) := braceFree_append (braceFree_append ha hv) hb
  have hnoR : hasSub (a ++ v ++ (b ++ tok k ++ c)) (tok (str "Runtime")) = false := by
    rw [hshape]; exact hasSub_tok_ne hAb hc (by decide) hkk (Ne.symm hR)
  have hnoP : hasSub (a ++ v ++ (b ++ tok k ++ c)) (tok (str "Poster")) = false := by
    rw [hshape]; exact hasSub_tok_ne hAb hc (by decide) hkk (Ne.symm hP)
  have hnoT : hasSub (a ++ v ++ (b ++ tok k ++ c)) (tok (str "Trailer")) = false := by
    rw [hshape]; exact hasSub_tok_ne hAb hc (by decide) hkk (Ne.symm hT)
  have hg : genericPass [(k, v)] (a ++ tok k ++ (b ++ tok k ++ c))
      = a ++ v ++ (b ++ tok k ++ c) := by
    rw [genericPass_cons, if_neg (by simp [hP, hT, hR]), genericPass_nil,
        replaceFirstS_tok a (b ++ tok k ++ c) k v ha.1]
  have hr : runtimeStep [(k, v)] (a ++ v ++ (b ++ tok k ++ c))
      = a ++ v ++ (b ++ tok k ++ c) := by
    have hl : lookupStr [(k, v)] (str "Runtime") = none := by simp [lookupStr, hR]
    simp only [runtimeStep, hl]
    exact replaceFirstS_of_not_hasSub _ hnoR
  have hps : posterStep s [(k, v)] (a ++ v ++ (b ++ tok k ++ c))
      = a ++ v ++ (b ++ tok k ++ c) := by
    have hl : lookupStr [(k, v)] (str "Poster") = none := by simp [lookupStr, hP]
    simp only [posterStep, hl]
    exact replaceFirstS_of_not_hasSub _ hnoP
  rw [formatter_no_yt net _ _ hk]
  show some (replaceFirstS (posterStep s _ (runtimeStep _ (genericPass _ _)))
      (tok (str "Trailer")) []) = _
  rw [hg, hr, hps, replaceFirstS_of_not_hasSub _ hnoT]

/-- C4 witness: the amended theorem at a concrete Genre field and a template
containing `{{Genre}}` twice. -/
theorem C4_witness :
    (formatter s0 (netDune ytEmpty) [(str "Genre", str "SciFi")]
        (str "A " ++ tok (str "Genre") ++ (str " B " ++ tok (str "Genre") ++ str " C"))).1
        = some (str "A " ++ str "SciFi" ++ (str " B " ++ tok (str "Genre") ++ str " C")) :=
  C4_amended s0 (netDune ytEmpty) (str "Genre") (str "SciFi") (str "A ") (str " B ")
    (str " C") rfl (by decide) (by decide) (by decide) (by decide) (by decide)
    (by decide) (by decide) (by decide)

/-! ## Claim C5 -/

/-- C5: when the Runtime field is present, truthy and not "N/A", and its
leading integer parses to `m` minutes, the formatter replaces `{{Runtime}}`
with `${m / 60}h ${m % 60}m`; when Runtime is "N/A" or absent, `{{Runtime}}`
is replaced with "-". -/
theorem C5_theorem :
    (∀ (s : MoviePluginSettings) (net : Network) (v a b : Str) (m : Nat),
        s.youtubeapikey = [] → braceFree a → braceFree b →
        v ≠ [] → v ≠ str "N/A" →
        jsParseInt (jsSplitHead v) = some (Int.ofNat m) →
        (formatter s net [(str "Runtime", v)] (a ++ tok (str "Runtime") ++ b)).1
          = some (a ++ (natStr (m / 60) ++ str "h " ++ natStr (m % 60) ++ str "m") ++ b))
    ∧ (∀ (s : MoviePluginSettings) (net : Network) (a b : Str),
        s.youtubeapikey = [] → braceFree a → braceFree b →
        (formatter s net [(str "Runtime", str "N/A")] (a ++ tok (str "Runtime") ++ b)).1
          = some (a ++ str "-" ++ b)
        ∧ (formatter s net [] (a ++ tok (str "Runtime") ++ b)).1
          = some (a ++ str "-" ++ b)) := by
  constructor
  · intro s net v a b m hk ha hb hv1 hv2 hparse
    have hrr : runtimeRender v
        = natStr (m / 60) ++ str "h " ++ natStr (m % 60) ++ str "m" := by
      simp only [runtimeRender, hparse]
      have h60 : (60 : Int) = Int.ofNat 60 := rfl
      rw [h60, fdiv_ofNat, tmod_ofNat]
      rfl
    have hbfr : braceFree (natStr (m / 60) ++ str "h " ++ natStr (m % 60) ++ str "m") :=
      braceFree_append (braceFree_append (braceFree_append (natStr_braceFree _)
        (by decide)) (natStr_braceFree _)) (by decide)
    have hnolb : lb ∉ a ++ (natStr (m / 60) ++ str "h " ++ natStr (m % 60) ++ str "m") ++ b := by
      intro hm
      rcases List.mem_append.mp hm with hm' | hm'
      · rcases List.mem_append.mp hm' with h'' | h''
        · exact ha.1 h''
        · exact hbfr.1 h''
      · exact hb.1 hm'
    have hg : genericPass [(str "Runtime", v)] (a ++ tok (str "Runtime") ++ b)
        = a ++ tok (str "Runtime") ++ b := by
      rw [genericPass_cons, if_pos (by decide), genericPass_nil]
    have hlr : lookupStr [(str "Runtime", v)] (str "Runtime") = some v := by
      simp [lookupStr]
    have hr : runtimeStep [(str "Runtime", v)] (a ++ tok (str "Runtime") ++ b)
        = a ++ (natStr (m / 60) ++ str "h " ++ natStr (m % 60) ++ str "m") ++ b := by
      simp only [runtimeStep, hlr]
      rw [if_pos ⟨hv1, hv2⟩, hrr, replaceFirstS_tok a b _ _ ha.1]
    have hlp : lookupStr [(str "Runtime", v)] (str "Poster") = none := by
      simp only [lookupStr]
      rw [if_neg (by decide)]
    have hps : posterStep s [(str "Runtime", v)]
        (a ++ (natStr (m / 60) ++ str "h " ++ natStr (m % 60) ++ str "m") ++ b)
        = a ++ (natStr (m / 60) ++ str "h " ++ natStr (m % 60) ++ str "m") ++ b := by
      simp only [posterStep, hlp]
      exact replaceFirstS_tok_no_op _ _ hnolb
    rw [formatter_no_yt net _ _ hk]
    show some (replaceFirstS (posterStep s _ (runtimeStep _ (genericPass _ _)))
        (tok (str "Trailer")) []) = _
    rw [hg, hr, hps, replaceFirstS_tok_no_op _ _ hnolb]
  · intro s net a b hk ha hb
    have hnolb : lb ∉ a ++ str "-" ++ b := by
      intro hm
      rcases List.mem_append.mp hm with hm' | hm'
      · rcases List.mem_append.mp hm' with h'' | h''
        · exact ha.1 h''
        · exact absurd h'' (by decide)
      · exact hb.1 hm'
    constructor
    · have hg : genericPass [(str "Runtime", str "N/A")] (a ++ tok (str "Runtime") ++ b)
          = a ++ tok (str "Runtime") ++ b := by
        rw [genericPass_cons, if_pos (by decide), genericPass_nil]
      have hlr : lookupStr [(str "Runtime", str "N/A")] (str "Runtime") = some (str "N/A") := by
        simp [lookupStr]
      have hr : runtimeStep [(str "Runtime", str "N/A")] (a ++ tok (str "Runtime") ++ b)
          = a ++ str "-" ++ b := by
        simp only [runtimeStep, hlr]
        rw [if_neg (by decide), replaceFirstS_tok a b _ _ ha.1]
      have hlp : lookupStr [(str "Runtime", str "N/A")] (str "Poster") = none := by
        simp only [lookupStr]
        rw [if_neg (by decide)]
      have hps : posterStep s [(str "Runtime", str "N/A")] (a ++ str "-" ++ b)
          = a ++ str "-" ++ b := by
        simp only [posterStep, hlp]
        exact replaceFirstS_tok_no_op _ _ hnolb
      rw [formatter_no_yt net _ _ hk]
      show some (replaceFirstS (posterStep s _ (runtimeStep _ (genericPass _ _)))
          (tok (str "Trailer")) []) = _
      rw [hg, hr, hps, replaceFirstS_tok_no_op _ _ hnolb]
    · have hr : runtimeStep [] (a ++ tok (str "Runtime") ++ b) = a ++ str "-" ++ b := by
        simp only [runtimeStep, lookupStr]
        rw [replaceFirstS_tok a b _ _ ha.1]
      have hps : posterStep s [] (a ++ str "-" ++ b) = a ++ str "-" ++ b := by
        simp only [posterStep, lookupStr]
        exact replaceFirstS_tok_no_op _ _ hnolb
      rw [formatter_no_yt net _ _ hk]
      show some (replaceFirstS (posterStep s _ (runtimeStep _ (genericPass _ _)))
          (tok (str "Trailer")) []) = _
      rw [genericPass_nil, hr, hps, replaceFirstS_tok_no_op _ _ hnolb]

/-- C5 witness: `"142 min"` renders as `2h 22m` and `"N/A"` as `-` at a
concrete template. -/
theorem C5_witness :
    (formatter s0 netOceans [(str "Runtime", str "142 min")]
        (str "Length: " ++ tok (str "Runtime") ++ str ".")).1
      = some (str "Length: " ++
          (natStr (142 / 60) ++ str "h " ++ natStr (142 % 60) ++ str "m") ++ str ".")
    ∧ (formatter s0 netOceans [(str "Runtime", str "N/A")]
        (str "Length: " ++ tok (str "Runtime") ++ str ".")).1
      = some (str "Length: " ++ str "-" ++ str ".") :=
  ⟨C5_theorem.1 s0 netOceans (str "142 min") (str "Length: ") (str ".") 142 rfl
      (by decide) (by decide) (by decide) (by decide) (by decide),
   (C5_theorem.2 s0 netOceans (str "Length: ") (str ".") rfl (by decide) (by decide)).1⟩

/-! ## Claim C6 -/

/-- C6: with an empty movie-database key, `crawlAndAdd` emits exactly the
configuration notice and stops: no fetch, no note, no binary write, for
every input and every network. -/
theorem C6_theorem : ∀ (s : MoviePluginSettings) (net : Network) (text : Str),
    s.omdbapikey = [] →
    crawlAndAdd s net text
        = ([Effect.notice (str "Please enter your OMDB API key in the settings.")],
           Outcome.finished)
    ∧ (∀ u, Effect.fetch u ∉ (crawlAndAdd s net text).1)
    ∧ (∀ p c, Effect.create p c ∉ (crawlAndAdd s net text).1)
    ∧ (∀ p, Effect.createBinary p ∉ (crawlAndAdd s net text).1) := by
  intro s net text hk
  have he : crawlAndAdd s net text
      = ([Effect.notice (str "Please enter your OMDB API key in the settings.")],
         Outcome.finished) := by
    simp [crawlAndAdd, hk]
  refine ⟨he, ?_, ?_, ?_⟩
  · intro u hm; rw [he] at hm; simp at hm
  · intro p c hm; rw [he] at hm; simp at hm
  · intro p hm; rw [he] at hm; simp at hm

/-- C6 witness: the theorem at a concrete empty-key settings record. -/
theorem C6_witness :
    crawlAndAdd { s0 with omdbapikey := ([] : Str) } netOceans (str "Dune")
        = ([Effect.notice (str "Please enter your OMDB API key in the settings.")],
           Outcome.finished)
    ∧ Effect.fetch (str "https://example.org")
        ∉ (crawlAndAdd { s0 with omdbapikey := ([] : Str) } netOceans (str "Dune")).1 :=
  ⟨(C6_theorem { s0 with omdbapikey := ([] : Str) } netOceans (str "Dune") rfl).1,
   (C6_theorem { s0 with omdbapikey := ([] : Str) } netOceans (str "Dune") rfl).2.1
      (str "https://example.org")⟩

/-! ## Claim C7 -/

/-- C7: whenever the metadata fetch fails — a rejected/throwing request
(`Except.error`) or the API-level not-found body without a Title field —
`crawlMovie` returns no record, the notices include the error text and the
request URL, and `crawlAndAdd` stops without writing a note, without the
poster download, and with exactly one fetch (no retry). -/
theorem C7_theorem :
    (∀ (s : MoviePluginSettings) (net : Network) (text e : Str),
        s.omdbapikey ≠ [] →
        net.omdb (getUrl (omdbApiUrlOf s) text) = Except.error e →
        (crawlMovie net (omdbApiUrlOf s) text).1 = none
        ∧ Effect.notice e ∈ (crawlAndAdd s net text).1
        ∧ Effect.notice (getUrl (omdbApiUrlOf s) text) ∈ (crawlAndAdd s net text).1
        ∧ (∀ p c, Effect.create p c ∉ (crawlAndAdd s net text).1)
        ∧ (∀ p, Effect.createBinary p ∉ (crawlAndAdd s net text).1)
        ∧ countFetches (crawlAndAdd s net text).1 = 1
        ∧ (crawlAndAdd s net text).2 = Outcome.finished)
    ∧ (∀ (s : MoviePluginSettings) (net : Network) (text : Str) (j : List (Str × Str)),
        s.omdbapikey ≠ [] →
        net.omdb (getUrl (omdbApiUrlOf s) text) = Except.ok j →
        lookupStr j (str "Title") = none →
        (crawlMovie net (omdbApiUrlOf s) text).1 = none
        ∧ Effect.notice titleUndefinedError ∈ (crawlAndAdd s net text).1
        ∧ Effect.notice (getUrl (omdbApiUrlOf s) text) ∈ (crawlAndAdd s net text).1
        ∧ (∀ p c, Effect.create p c ∉ (crawlAndAdd s net text).1)
        ∧ (∀ p, Effect.createBinary p ∉ (crawlAndAdd s net text).1)
        ∧ countFetches (crawlAndAdd s net text).1 = 1) := by
  constructor
  · intro s net text e hk ho
    have hcm : crawlMovie net (omdbApiUrlOf s) text
        = (none, [Effect.fetch (getUrl (omdbApiUrlOf s) text),
                  Effect.notice (str "Movie not found."), Effect.notice e,
                  Effect.notice (getUrl (omdbApiUrlOf s) text)]) := by
      simp [crawlMovie, ho]
    have htr : crawlAndAdd s net text
        = ((if s.youtubeapikey = [] then
              [Effect.notice (str "Youtube API key is missing. Trailer will not be added.")]
            else []) ++
           [Effect.fetch (getUrl (omdbApiUrlOf s) text),
            Effect.notice (str "Movie not found."), Effect.notice e,
            Effect.notice (getUrl (omdbApiUrlOf s) text)], Outcome.finished) := by
      simp [crawlAndAdd, hk, hcm]
    refine ⟨by rw [hcm], ?_, ?_, ?_, ?_, ?_, by rw [htr]⟩
    · rw [htr]; by_cases hyk : s.youtubeapikey = [] <;> simp [hyk]
    · rw [htr]; by_cases hyk : s.youtubeapikey = [] <;> simp [hyk]
    · intro p c; rw [htr]; by_cases hyk : s.youtubeapikey = [] <;> simp [hyk]
    · intro p; rw [htr]; by_cases hyk : s.youtubeapikey = [] <;> simp [hyk]
    · rw [htr]; by_cases hyk : s.youtubeapikey = [] <;>
        simp [hyk, countFetches, isFetch]
  · intro s net text j hk ho hT
    have hcm : crawlMovie net (omdbApiUrlOf s) text
        = (none, [Effect.fetch (getUrl (omdbApiUrlOf s) text),
                  Effect.notice (str "Movie not found."),
                  Effect.notice titleUndefinedError,
                  Effect.notice (getUrl (omdbApiUrlOf s) text)]) := by
      simp [crawlMovie, ho, hT]
    have htr : crawlAndAdd s net text
        = ((if s.youtubeapikey = [] then
              [Effect.notice (str "Youtube API key is missing. Trailer will not be added.")]
            else []) ++
           [Effect.fetch (getUrl (omdbApiUrlOf s) text),
            Effect.notice (str "Movie not found."),
            Effect.notice titleUndefinedError,
            Effect.notice (getUrl (omdbApiUrlOf s) text)], Outcome.finished) := by
      simp [crawlAndAdd, hk, hcm]
    refine ⟨by rw [hcm], ?_, ?_, ?_, ?_, ?_⟩
    · rw [htr]; by_cases hyk : s.youtubeapikey = [] <;> simp [hyk]
    · rw [htr]; by_cases hyk : s.youtubeapikey = [] <;> simp [hyk]
    · intro p c; rw [htr]; by_cases hyk : s.youtubeapikey = [] <;> simp [hyk]
    · intro p; rw [htr]; by_cases hyk : s.youtubeapikey = [] <;> simp [hyk]
    · rw [htr]; by_cases hyk : s.youtubeapikey = [] <;>
        simp [hyk, countFetches, isFetch]

/-- C7 witness: a rejected fetch and a not-found body at concrete fixtures. -/
theorem C7_witness :
    (crawlMovie netOmdbErr (omdbApiUrlOf s0) (str "Dune")).1 = none
    ∧ Effect.notice (str "net ERR_CONNECTION_REFUSED")
        ∈ (crawlAndAdd s0 netOmdbErr (str "Dune")).1
    ∧ countFetches (crawlAndAdd s0 netOmdbErr (str "Dune")).1 = 1
    ∧ (crawlMovie netNoTitle (omdbApiUrlOf s0) (str "Dune")).1 = none :=
  ⟨(C7_theorem.1 s0 netOmdbErr (str "Dune") (str "net ERR_CONNECTION_REFUSED")
      (by decide) rfl).1,
   (C7_theorem.1 s0 netOmdbErr (str "Dune") (str "net ERR_CONNECTION_REFUSED")
      (by decide) rfl).2.1,
   (C7_theorem.1 s0 netOmdbErr (str "Dune") (str "net ERR_CONNECTION_REFUSED")
      (by decide) rfl).2.2.2.2.2.1,
   (C7_theorem.2 s0 netNoTitle (str "Dune")
      [(str "Response", str "False"), (str "Error", str "Movie not found!")]
      (by decide) rfl (by decide)).1⟩

/-! ## Claim C8 -/

theorem addImage_effects (net : Network) (s : MoviePluginSettings) (url fn : Str) :
    ∀ e ∈ addImageToAssets net s url fn,
      (∃ u', e = Effect.fetch u') ∨ (∃ p', e = Effect.createBinary p') := by
  intro e he
  unfold addImageToAssets at he
  cases h : net.asset url <;> rw [h] at he <;> simp at he
  · exact Or.inl ⟨url, he⟩
  · rcases he with he | he
    · exact Or.inl ⟨url, he⟩
    · exact Or.inr ⟨_, he⟩

/-- C8: `getTrailerOnYoutube` returns the first result item's `videoId`;
when the response's `items` list is empty, the `items[0].id.videoId` access
faults (modelled as `none`), and nothing in the pipeline catches it: the
run terminates `faulted`, no note is created and no success notice shown. -/
theorem C8_theorem :
    (∀ (net : Network) (u title : Str) (item : YoutubeItem) (rest : List YoutubeItem),
        net.yt (u ++ title ++ str " trailer") = Except.ok ⟨item :: rest⟩ →
        getTrailerOnYoutube net u title
          = (some item.id.videoId, [Effect.fetch (u ++ title ++ str " trailer")]))
    ∧ (∀ (net : Network) (u title : Str),
        net.yt (u ++ title ++ str " trailer") = Except.ok ⟨[]⟩ →
        (getTrailerOnYoutube net u title).1 = none)
    ∧ (∀ (s : MoviePluginSettings) (net : Network) (text : Str)
          (j : List (Str × Str)) (t0 : Str),
        s.omdbapikey ≠ [] → s.youtubeapikey ≠ [] →
        net.omdb (getUrl (omdbApiUrlOf s) text) = Except.ok j →
        lookupStr j (str "Title") = some t0 →
        net.yt (youtubeApiUrlOf s ++ sanitizeTitle t0 ++ str " trailer")
          = Except.ok ⟨[]⟩ →
        (crawlAndAdd s net text).2 = Outcome.faulted
        ∧ (∀ p c, Effect.create p c ∉ (crawlAndAdd s net text).1)
        ∧ Effect.notice (str "Movie added successfully!") ∉ (crawlAndAdd s net text).1) := by
  refine ⟨?_, ?_, ?_⟩
  · intro net u title item rest h
    have h' : net.yt (u ++ (title ++ str " trailer")) = Except.ok ⟨item :: rest⟩ := by
      rw [← List.append_assoc]; exact h
    simp [getTrailerOnYoutube, h']
  · intro net u title h
    have h' : net.yt (u ++ (title ++ str " trailer")) = Except.ok ⟨[]⟩ := by
      rw [← List.append_assoc]; exact h
    simp [getTrailerOnYoutube, h']
  · intro s net text j t0 hk hyk ho hT hyt
    have hcm : crawlMovie net (omdbApiUrlOf s) text
        = (some (setField j (str "Title") (sanitizeTitle t0)),
           [Effect.fetch (getUrl (omdbApiUrlOf s) text)]) := by
      simp [crawlMovie, ho, hT]
    have hTm : lookupStr (setField j (str "Title") (sanitizeTitle t0)) (str "Title")
        = some (sanitizeTitle t0) := lookupStr_setField_self _ hT
    have hfm : formatter s net (setField j (str "Title") (sanitizeTitle t0)) s.template
        = (none, [Effect.fetch (youtubeApiUrlOf s ++ sanitizeTitle t0 ++ str " trailer")]) :=
      formatter_yt_empty _ hyk hTm hyt
    have htr : crawlAndAdd s net text
        = ([Effect.fetch (getUrl (omdbApiUrlOf s) text)] ++
           addImageToAssets net s
             ((lookupStr (setField j (str "Title") (sanitizeTitle t0))
                (str "Poster")).getD (str "undefined"))
             (sanitizeTitle t0 ++ str ".jpg") ++
           [Effect.fetch (youtubeApiUrlOf s ++ sanitizeTitle t0 ++ str " trailer")],
           Outcome.faulted) := by
      simp [crawlAndAdd, hk, hyk, hcm, formatMovie, hfm, hTm]
    refine ⟨by rw [htr], ?_, ?_⟩
    · intro p c hm
      rw [htr] at hm
      simp only [List.append_assoc, List.mem_append, List.mem_singleton] at hm
      rcases hm with hm | hm | hm
      · exact absurd hm (by simp)
      · rcases addImage_effects net s _ _ _ hm with ⟨u', hu⟩ | ⟨p', hp⟩
        · cases hu
        · cases hp
      · exact absurd hm (by simp)
    · intro hm
      rw [htr] at hm
      simp only [List.append_assoc, List.mem_append, List.mem_singleton] at hm
      rcases hm with hm | hm | hm
      · exact absurd hm (by simp)
      · rcases addImage_effects net s _ _ _ hm with ⟨u', hu⟩ | ⟨p', hp⟩
        · cases hu
        · cases hp
      · exact absurd hm (by simp)

/-- C8 witness: an empty video-search result at concrete fixtures makes the
trailer lookup fault and the whole pipeline terminate faulted without a
note; a nonempty result returns the first item's id. -/
theorem C8_witness :
    (getTrailerOnYoutube (netDune ytEmpty) (str "Y") (str "Dune")).1 = none
    ∧ (crawlAndAdd s9 (netDune ytEmpty) (str "Dune")).2 = Outcome.faulted
    ∧ Effect.notice (str "Movie added successfully!")
        ∉ (crawlAndAdd s9 (netDune ytEmpty) (str "Dune")).1 :=
  ⟨C8_theorem.2.1 (netDune ytEmpty) (str "Y") (str "Dune") rfl,
   (C8_theorem.2.2 s9 (netDune ytEmpty) (str "Dune") duneRecord (str "Dune")
      (by decide) (by decide) rfl (by decide) rfl).1,
   (C8_theorem.2.2 s9 (netDune ytEmpty) (str "Dune") duneRecord (str "Dune")
      (by decide) (by decide) rfl (by decide) rfl).2.2⟩

/-! ## Claim C9 -/

theorem runtimeRender_eq {v : Str} {m : Nat}
    (hparse : jsParseInt (jsSplitHead v) = some (Int.ofNat m)) :
    runtimeRender v = natStr (m / 60) ++ str "h " ++ natStr (m % 60) ++ str "m" := by
  simp only [runtimeRender, hparse]
  have h60 : (60 : Int) = Int.ofNat 60 := rfl
  rw [h60, fdiv_ofNat, tmod_ofNat]
  rfl

/-- C9: `addContentToFile` resolves the output filename by the full
formatter applied to the `fileName` template: on the success path with a
video-search key configured, the trailer endpoint is fetched twice (once
for the note body, once more during filename resolution), and a
`{{Runtime}}` token in the filename template is substituted with the
derived `${m / 60}h ${m % 60}m` value in the created note's path. -/
theorem C9_theorem : ∀ (s : MoviePluginSettings) (net : Network) (text : Str)
    (j : List (Str × Str)) (t0 v p : Str) (m : Nat) (item : YoutubeItem)
    (rest : List YoutubeItem) (a b : Str),
    s.omdbapikey ≠ [] → s.youtubeapikey ≠ [] →
    net.omdb (getUrl (omdbApiUrlOf s) text) = Except.ok j →
    lookupStr j (str "Title") = some t0 →
    lookupStr j (str "Runtime") = some v →
    lookupStr j (str "Poster") = some p →
    (∀ kv ∈ j, braceFree kv.1) →
    v ≠ [] → v ≠ str "N/A" →
    jsParseInt (jsSplitHead v) = some (Int.ofNat m) →
    net.yt (youtubeApiUrlOf s ++ sanitizeTitle t0 ++ str " trailer")
      = Except.ok ⟨item :: rest⟩ →
    net.asset p = some () →
    braceFree a → braceFree b →
    s.fileName = a ++ tok (str "Runtime") ++ b →
    ∃ body : Str,
      crawlAndAdd s net text =
        ([Effect.fetch (getUrl (omdbApiUrlOf s) text),
          Effect.fetch p,
          Effect.createBinary (s.assetPath ++ str "/" ++ sanitizeTitle t0 ++ str ".jpg"),
          Effect.fetch (youtubeApiUrlOf s ++ sanitizeTitle t0 ++ str " trailer"),
          Effect.fetch (youtubeApiUrlOf s ++ sanitizeTitle t0 ++ str " trailer"),
          Effect.create (s.mainPath ++ str "/" ++
            (a ++ (natStr (m / 60) ++ str "h " ++ natStr (m % 60) ++ str "m") ++ b) ++
            str ".md") body,
          Effect.openLink (s.mainPath ++ str "/" ++
            (a ++ (natStr (m / 60) ++ str "h " ++ natStr (m % 60) ++ str "m") ++ b) ++
            str ".md"),
          Effect.notice (str "Movie added successfully!")], Outcome.finished) := by
  intro s net text j t0 v p m item rest a b hk hyk ho hT hR hPo hkeys hv1 hv2 hparse
    hyt hasset ha hb hfile
  have hcm : crawlMovie net (omdbApiUrlOf s) text
      = (some (setField j (str "Title") (sanitizeTitle t0)),
         [Effect.fetch (getUrl (omdbApiUrlOf s) text)]) := by
    simp [crawlMovie, ho, hT]
  have hTm : lookupStr (setField j (str "Title") (sanitizeTitle t0)) (str "Title")
      = some (sanitizeTitle t0) := lookupStr_setField_self _ hT
  have hRm : lookupStr (setField j (str "Title") (sanitizeTitle t0)) (str "Runtime")
      = some v := by
    rw [lookupStr_setField_ne _ (by decide)]; exact hR
  have hPm : lookupStr (setField j (str "Title") (sanitizeTitle t0)) (str "Poster")
      = some p := by
    rw [lookupStr_setField_ne _ (by decide)]; exact hPo
  have hfm : formatter s net (setField j (str "Title") (sanitizeTitle t0)) s.template
      = (some (replaceFirstS
          (posterStep s (setField j (str "Title") (sanitizeTitle t0))
            (runtimeStep (setField j (str "Title") (sanitizeTitle t0))
              (genericPass (setField j (str "Title") (sanitizeTitle t0)) s.template)))
          (tok (str "Trailer")) (iframeOf item.id.videoId)),
         [Effect.fetch (youtubeApiUrlOf s ++ sanitizeTitle t0 ++ str " trailer")]) :=
    formatter_yt_ok s.template hyk hTm hyt
  -- filename resolution
  have hbfr : braceFree (natStr (m / 60) ++ str "h " ++ natStr (m % 60) ++ str "m") :=
    braceFree_append (braceFree_append (braceFree_append (natStr_braceFree _)
      (by decide)) (natStr_braceFree _)) (by decide)
  have hnolb : lb ∉ a ++ (natStr (m / 60) ++ str "h " ++ natStr (m % 60) ++ str "m") ++ b := by
    intro hm'
    rcases List.mem_append.mp hm' with hm'' | hm''
    · rcases List.mem_append.mp hm'' with h'' | h''
      · exact ha.1 h''
      · exact hbfr.1 h''
    · exact hb.1 hm''
  have hgen : genericPass (setField j (str "Title") (sanitizeTitle t0))
      (a ++ tok (str "Runtime") ++ b) = a ++ tok (str "Runtime") ++ b := by
    apply genericPass_no_op
    intro kv hm'
    by_cases hs : kv.1 = str "Poster" ∨ kv.1 = str "Trailer" ∨ kv.1 = str "Runtime"
    · exact Or.inl hs
    · right
      obtain ⟨kv', hkv', he⟩ := setField_keys kv hm'
      have hbk : braceFree kv.1 := he ▸ hkeys kv' hkv'
      have hne : kv.1 ≠ str "Runtime" := fun hh => hs (Or.inr (Or.inr hh))
      exact hasSub_tok_ne ha hb hbk (by decide) hne
  have hrt : runtimeStep (setField j (str "Title") (sanitizeTitle t0))
      (a ++ tok (str "Runtime") ++ b)
      = a ++ (natStr (m / 60) ++ str "h " ++ natStr (m % 60) ++ str "m") ++ b := by
    simp only [runtimeStep, hRm]
    rw [if_pos ⟨hv1, hv2⟩, runtimeRender_eq hparse, replaceFirstS_tok a b _ _ ha.1]
  have hpst : posterStep s (setField j (str "Title") (sanitizeTitle t0))
      (a ++ (natStr (m / 60) ++ str "h " ++ natStr (m % 60) ++ str "m") ++ b)
      = a ++ (natStr (m / 60) ++ str "h " ++ natStr (m % 60) ++ str "m") ++ b := by
    simp only [posterStep, hPm]
    by_cases hp : p ≠ [] ∧ p ≠ str "N/A"
    · rw [if_pos hp]; exact replaceFirstS_tok_no_op _ _ hnolb
    · rw [if_neg hp]; exact replaceFirstS_tok_no_op _ _ hnolb
  have hffn : formatter s net (setField j (str "Title") (sanitizeTitle t0)) s.fileName
      = (some (a ++ (natStr (m / 60) ++ str "h " ++ natStr (m % 60) ++ str "m") ++ b),
         [Effect.fetch (youtubeApiUrlOf s ++ sanitizeTitle t0 ++ str " trailer")]) := by
    rw [formatter_yt_ok s.fileName hyk hTm hyt, hfile, hgen, hrt, hpst,
        replaceFirstS_tok_no_op _ _ hnolb]
  refine ⟨replaceFirstS
      (posterStep s (setField j (str "Title") (sanitizeTitle t0))
        (runtimeStep (setField j (str "Title") (sanitizeTitle t0))
          (genericPass (setField j (str "Title") (sanitizeTitle t0)) s.template)))
      (tok (str "Trailer")) (iframeOf item.id.videoId), ?_⟩
  simp [crawlAndAdd, hk, hyk, hcm, hTm, hPm, addImageToAssets, hasset,
    formatMovie, hfm, addContentToFile, hffn]

/-- C9 witness: the theorem at the Dune fixtures; the note is created at
`movies/F-2h 35m.md` and the trailer endpoint is fetched twice. -/
theorem C9_witness :
    ∃ body : Str,
      crawlAndAdd s9 (netDune ytVid) (str "Dune") =
        ([Effect.fetch (getUrl (omdbApiUrlOf s9) (str "Dune")),
          Effect.fetch (str "http://x/p.jpg"),
          Effect.createBinary (s9.assetPath ++ str "/" ++ sanitizeTitle (str "Dune") ++ str ".jpg"),
          Effect.fetch (youtubeApiUrlOf s9 ++ sanitizeTitle (str "Dune") ++ str " trailer"),
          Effect.fetch (youtubeApiUrlOf s9 ++ sanitizeTitle (str "Dune") ++ str " trailer"),
          Effect.create (s9.mainPath ++ str "/" ++
            (str "F-" ++ (natStr (155 / 60) ++ str "h " ++ natStr (155 % 60) ++ str "m") ++ []) ++
            str ".md") body,
          Effect.openLink (s9.mainPath ++ str "/" ++
            (str "F-" ++ (natStr (155 / 60) ++ str "h " ++ natStr (155 % 60) ++ str "m") ++ []) ++
            str ".md"),
          Effect.notice (str "Movie added successfully!")], Outcome.finished) :=
  C9_theorem s9 (netDune ytVid) (str "Dune") duneRecord (str "Dune") (str "155 min")
    (str "http://x/p.jpg") 155 ⟨⟨str "dQw4w9WgXcQ"⟩⟩ [] (str "F-") []
    (by decide) (by decide) rfl (by decide) (by decide) (by decide) (by decide)
    (by decide) (by decide) (by decide) rfl rfl (by decide) (by decide) rfl

/-! ## Claim C10 -/

/-- C10: the poster binary is always stored at
`<assetPath>/<sanitised Title>.jpg` (and nowhere else), while the embed the
formatter writes into the note references `<assetPath>/<r>.jpg` where `r` is
the `fileName` template with its first `{{Title}}` replaced by the Title;
the two paths coincide exactly when `r` equals the Title (true for the
default `{{Title}}` template), and when they differ no file was stored at
the referenced path. -/
theorem C10_theorem :
    (∀ (s : MoviePluginSettings) (net : Network) (T p a b : Str),
        s.youtubeapikey = [] → braceFree a → braceFree b →
        braceFree s.assetPath → lb ∉ resolvedPosterFile s T →
        p ≠ [] → p ≠ str "N/A" →
        (formatter s net [(str "Title", T), (str "Poster", p)]
            (a ++ tok (str "Poster") ++ b)).1
          = some (a ++ posterEmbed s T ++ b))
    ∧ (∀ (s : MoviePluginSettings) (T : Str),
        (s.assetPath ++ str "/" ++ T ++ str ".jpg"
            = s.assetPath ++ str "/" ++ resolvedPosterFile s T ++ str ".jpg")
          ↔ resolvedPosterFile s T = T)
    ∧ (∀ (s : MoviePluginSettings) (T : Str), s.fileName = tok (str "Title") →
        resolvedPosterFile s T = T)
    ∧ (∀ (s : MoviePluginSettings) (net : Network) (text : Str)
          (j : List (Str × Str)) (t0 p : Str),
        s.omdbapikey ≠ [] → s.youtubeapikey = [] →
        net.omdb (getUrl (omdbApiUrlOf s) text) = Except.ok j →
        lookupStr j (str "Title") = some t0 →
        lookupStr j (str "Poster") = some p →
        net.asset p = some () →
        Effect.createBinary (s.assetPath ++ str "/" ++ sanitizeTitle t0 ++ str ".jpg")
            ∈ (crawlAndAdd s net text).1
        ∧ (∀ q, Effect.createBinary q ∈ (crawlAndAdd s net text).1 →
              q = s.assetPath ++ str "/" ++ sanitizeTitle t0 ++ str ".jpg")
        ∧ (resolvedPosterFile s (sanitizeTitle t0) ≠ sanitizeTitle t0 →
            Effect.createBinary (s.assetPath ++ str "/" ++
                resolvedPosterFile s (sanitizeTitle t0) ++ str ".jpg")
              ∉ (crawlAndAdd s net text).1)) := by
  refine ⟨?_, ?_, ?_, ?_⟩
  · -- the embed produced by the formatter
    intro s net T p a b hk ha hb hAP hrf hp1 hp2
    have hembed : lb ∉ posterEmbed s T := by
      intro hm
      simp only [posterEmbed, List.mem_append] at hm
      rcases hm with ((((((h | h) | h) | h) | h) | h) | h)
      · exact absurd h (by decide)
      · exact hAP.1 h
      · exact absurd h (by decide)
      · exact hrf h
      · exact absurd h (by decide)
      · exact (intStr_braceFree _).1 h
      · exact absurd h (by decide)
    have hnolb : lb ∉ a ++ posterEmbed s T ++ b := by
      intro hm
      rcases List.mem_append.mp hm with hm' | hm'
      · rcases List.mem_append.mp hm' with h'' | h''
        · exact ha.1 h''
        · exact hembed h''
      · exact hb.1 hm'
    have hnoTitle : hasSub (a ++ tok (str "Poster") ++ b) (tok (str "Title")) = false :=
      hasSub_tok_ne ha hb (by decide) (by decide) (by decide)
    have hnoRuntime : hasSub (a ++ tok (str "Poster") ++ b) (tok (str "Runtime")) = false :=
      hasSub_tok_ne ha hb (by decide) (by decide) (by decide)
    have hgen : genericPass [(str "Title", T), (str "Poster", p)]
        (a ++ tok (str "Poster") ++ b) = a ++ tok (str "Poster") ++ b := by
      rw [genericPass_cons, if_neg (by decide), replaceFirstS_of_not_hasSub _ hnoTitle,
          genericPass_cons, if_pos (by decide), genericPass_nil]
    have hlr : lookupStr [(str "Title", T), (str "Poster", p)] (str "Runtime") = none := by
      simp only [lookupStr]
      rw [if_neg (by decide), if_neg (by decide)]
    have hrt : runtimeStep [(str "Title", T), (str "Poster", p)]
        (a ++ tok (str "Poster") ++ b) = a ++ tok (str "Poster") ++ b := by
      simp only [runtimeStep, hlr]
      exact replaceFirstS_of_not_hasSub _ hnoRuntime
    have hlp : lookupStr [(str "Title", T), (str "Poster", p)] (str "Poster") = some p := by
      simp only [lookupStr]
      rw [if_neg (by decide)]
      simp
    have hlT : lookupStr [(str "Title", T), (str "Poster", p)] (str "Title") = some T := by
      simp [lookupStr]
    have hpst : posterStep s [(str "Title", T), (str "Poster", p)]
        (a ++ tok (str "Poster") ++ b) = a ++ posterEmbed s T ++ b := by
      simp only [posterStep, hlp, hlT, Option.getD_some]
      rw [if_pos ⟨hp1, hp2⟩, replaceFirstS_tok a b _ _ ha.1]
    rw [formatter_no_yt net _ _ hk]
    show some (replaceFirstS (posterStep s _ (runtimeStep _ (genericPass _ _)))
        (tok (str "Trailer")) []) = _
    rw [hgen, hrt, hpst, replaceFirstS_tok_no_op _ _ hnolb]
  · -- save path equals referenced path iff the resolved name is the Title
    intro s T
    constructor
    · intro h
      have h1 : (s.assetPath ++ str "/") ++ (T ++ str ".jpg")
          = (s.assetPath ++ str "/") ++ (resolvedPosterFile s T ++ str ".jpg") := by
        simpa [List.append_assoc] using h
      exact (List.append_cancel_right (List.append_cancel_left h1)).symm
    · intro h
      rw [h]
  · -- the default filename template resolves to the Title itself
    intro s T h
    have h2 := replaceFirstS_tok [] [] (str "Title") T (by simp)
    unfold resolvedPosterFile
    rw [h]
    simpa using h2
  · -- the pipeline stores the poster exactly once, at assetPath/Title.jpg
    intro s net text j t0 p hk hyk ho hT hPo hasset
    have hcm : crawlMovie net (omdbApiUrlOf s) text
        = (some (setField j (str "Title") (sanitizeTitle t0)),
           [Effect.fetch (getUrl (omdbApiUrlOf s) text)]) := by
      simp [crawlMovie, ho, hT]
    have hTm : lookupStr (setField j (str "Title") (sanitizeTitle t0)) (str "Title")
        = some (sanitizeTitle t0) := lookupStr_setField_self _ hT
    have hPm : lookupStr (setField j (str "Title") (sanitizeTitle t0)) (str "Poster")
        = some p := by
      rw [lookupStr_setField_ne _ (by decide)]; exact hPo
    have hfm := formatter_no_yt (s := s) net (setField j (str "Title") (sanitizeTitle t0))
      s.template hyk
    have hffn := formatter_no_yt (s := s) net (setField j (str "Title") (sanitizeTitle t0))
      s.fileName hyk
    have htr : crawlAndAdd s net text
        = ([Effect.notice (str "Youtube API key is missing. Trailer will not be added."),
            Effect.fetch (getUrl (omdbApiUrlOf s) text),
            Effect.fetch p,
            Effect.createBinary (s.assetPath ++ str "/" ++ (sanitizeTitle t0 ++ str ".jpg")),
            Effect.create (s.mainPath ++ str "/" ++
              (replaceFirstS (posterStep s (setField j (str "Title") (sanitizeTitle t0))
                (runtimeStep (setField j (str "Title") (sanitizeTitle t0))
                  (genericPass (setField j (str "Title") (sanitizeTitle t0)) s.fileName)))
                (tok (str "Trailer")) []) ++ str ".md")
              (replaceFirstS (posterStep s (setField j (str "Title") (sanitizeTitle t0))
                (runtimeStep (setField j (str "Title") (sanitizeTitle t0))
                  (genericPass (setField j (str "Title") (sanitizeTitle t0)) s.template)))
                (tok (str "Trailer")) []),
            Effect.openLink (s.mainPath ++ str "/" ++
              (replaceFirstS (posterStep s (setField j (str "Title") (sanitizeTitle t0))
                (runtimeStep (setField j (str "Title") (sanitizeTitle t0))
                  (genericPass (setField j (str "Title") (sanitizeTitle t0)) s.fileName)))
                (tok (str "Trailer")) []) ++ str ".md"),
            Effect.notice (str "Movie added successfully!")], Outcome.finished) := by
      simp [crawlAndAdd, hk, hyk, hcm, hTm, hPm, addImageToAssets, hasset,
        formatMovie, hfm, addContentToFile, hffn]
    have hforall : ∀ q, Effect.createBinary q ∈ (crawlAndAdd s net text).1 →
        q = s.assetPath ++ str "/" ++ sanitizeTitle t0 ++ str ".jpg" := by
      intro q hq
      rw [htr] at hq
      simp at hq
      rw [hq]
      simp
    refine ⟨?_, hforall, ?_⟩
    · rw [htr]
      simp
    · intro hne hq
      have h1 := hforall _ hq
      have h2 : (s.assetPath ++ str "/") ++
          (resolvedPosterFile s (sanitizeTitle t0) ++ str ".jpg")
          = (s.assetPath ++ str "/") ++ (sanitizeTitle t0 ++ str ".jpg") := by
        simpa [List.append_assoc] using h1
      exact hne (List.append_cancel_right (List.append_cancel_left h2))

/-- C10 witness: the poster embed at a concrete template; the default
`{{Title}}` filename resolves to the Title; for `s10`, whose filename
template is `Movie - {{Title}}`, the poster is stored at `assets/Dune.jpg`
while no file is stored at the referenced `assets/Movie - Dune.jpg`. -/
theorem C10_witness :
    (formatter s0 (netDune ytEmpty)
        [(str "Title", str "Dune"), (str "Poster", str "http://x/p.jpg")]
        (str "A " ++ tok (str "Poster") ++ str " B")).1
      = some (str "A " ++ posterEmbed s0 (str "Dune") ++ str " B")
    ∧ resolvedPosterFile s0 (str "Dune") = str "Dune"
    ∧ Effect.createBinary (s10.assetPath ++ str "/" ++ sanitizeTitle (str "Dune") ++ str ".jpg")
        ∈ (crawlAndAdd s10 (netDune ytEmpty) (str "Dune")).1
    ∧ Effect.createBinary (s10.assetPath ++ str "/" ++
          resolvedPosterFile s10 (sanitizeTitle (str "Dune")) ++ str ".jpg")
        ∉ (crawlAndAdd s10 (netDune ytEmpty) (str "Dune")).1 :=
  ⟨C10_theorem.1 s0 (netDune ytEmpty) (str "Dune") (str "http://x/p.jpg")
      (str "A ") (str " B") rfl (by decide) (by decide) (by decide) (by decide)
      (by decide) (by decide),
   C10_theorem.2.2.1 s0 (str "Dune") rfl,
   (C10_theorem.2.2.2 s10 (netDune ytEmpty) (str "Dune") duneRecord (str "Dune")
      (str "http://x/p.jpg") (by decide) rfl rfl (by decide) (by decide) rfl).1,
   (C10_theorem.2.2.2 s10 (netDune ytEmpty) (str "Dune") duneRecord (str "Dune")
      (str "http://x/p.jpg") (by decide) rfl rfl (by decide) (by decide) rfl).2.2
      (by decide)⟩
